import Mathlib

/- A verification development for the synthetic e-commerce abuse-detection dataset
   generator: the archetype pattern generators of src/data/patterns.py, the dataset
   composer and validator of src/data/generate_synthetic_data.py, and the schema
   constants of src/schema.py.

   Modelling conventions of the shallow embedding:
   * Python floats are modelled as exact rationals (ℚ); Python ints as ℕ/ℤ.
   * `datetime` values are modelled as integer epoch seconds; `timedelta(days=d)`
     is `d * 86400` seconds.
   * The global `random`-module generator and the per-process Faker instance are
     modelled as two deterministic raw-output streams advanced by an explicit state
     (`RState`).  CPython's Mersenne Twister is abstracted by a 64-bit linear
     congruential step; every property proved here depends only on the draws being
     a deterministic function of the seed and on the ranges of the derived draws
     (`random()` in [0,1), `randint(lo,hi)` in [lo,hi], `choice` an element of the
     list), never on particular stream values.
   * String-valued identifier fields (transaction_id, device_id, ip_address) carry
     the numeric content of the formatted strings instead of the strings themselves;
     no claim inspects them.
   -/

set_option allowUnsafeReducibility true in
attribute [semireducible] Rat.add Rat.mul Rat.sub Rat.div Rat.neg Rat.inv Rat.ofScientific

set_option maxRecDepth 40000

namespace SynthData

/-- One step of the raw pseudo-random stream (64-bit LCG, Knuth MMIX constants),
standing in for CPython's Mersenne Twister. -/
def lcgStep (x : ℕ) : ℕ := (6364136223846793005 * x + 1442695040888963407) % 2 ^ 64

/-- State of the two random sources: `rnd` is the next raw output of the `random`
module's global generator, `fkr` the next raw output of the Faker generator. -/
structure RState where
  rnd : ℕ
  fkr : ℕ
deriving DecidableEq, Repr

/-- `random.seed(seed)` together with `Faker.seed(seed)`: both streams restart at a
position determined by the seed alone (the offset 2^64 keeps the two streams
distinct). -/
def mkRState (seed : ℕ) : RState :=
  { rnd := lcgStep seed, fkr := lcgStep (seed + 2 ^ 64) }

/-- Advance the `random`-module stream by one raw draw. -/
def RState.next (s : RState) : RState := { s with rnd := lcgStep s.rnd }

/-- Advance the Faker stream by one raw draw. -/
def RState.nextF (s : RState) : RState := { s with fkr := lcgStep s.fkr }

/-- The unit-interval value carried by a raw draw: uniform in [0,1) with 53-bit
resolution, as `random.random()` produces. -/
def unitOf (n : ℕ) : ℚ := ((n % 2 ^ 53 : ℕ) : ℚ) / 2 ^ 53

/- Each random primitive below is split into its value at the current state
(`...V`) and the state advance; a call `x = random.foo(...)` of the source is
embedded as `let x := fooV ... s; let s := s.next`, consuming exactly one raw
draw per primitive call (two for the two-octet IP helper). -/

/-- Value of `random.random()` at the current state. -/
def randomUnitV (s : RState) : ℚ := unitOf s.rnd

/-- Value of `random.randint(lo, hi)` for `lo ≤ hi`: a uniform integer in
[lo, hi]. -/
def randintV (lo hi : ℕ) (s : RState) : ℕ := lo + s.rnd % (hi - lo + 1)

/-- Value of `random.choice(l)` for nonempty `l`; `dflt` is only returned when
`l = []`, which never happens at the call sites below. -/
def choiceV {α : Type} (l : List α) (dflt : α) (s : RState) : α :=
  l.getD (s.rnd % l.length) dflt

/-- Selection by cumulative weights: the element at the least index whose running
weight total exceeds `x` (mirrors the bisect step of `random.choices`). -/
def pickW {α : Type} : List α → List ℚ → ℚ → α → α
  | a :: l, c :: w, x, dflt => if x < c then a else pickW l w (x - c) dflt
  | _, _, _, dflt => dflt

/-- Value of `random.choices(l, weights=w)[0]`: one draw of `random()` scaled by
the total weight, then cumulative-weight selection. -/
def choicesWV {α : Type} (l : List α) (w : List ℚ) (dflt : α) (s : RState) : α :=
  pickW l w (randomUnitV s * w.sum) dflt

/-- Value of `random.uniform(a, b) = a + (b-a)*random()` at the current state. -/
def uniformV (a b : ℚ) (s : RState) : ℚ := a + (b - a) * randomUnitV s

/-- Value of `random.gauss(mu, sigma)` at the current state.  The Gaussian
inverse transform is irrational, so it is abstracted as a deterministic rational
function of one unit draw; no claim depends on the distribution (or even the
sign) of this value. -/
def gaussV (mu sigma : ℚ) (s : RState) : ℚ := mu + sigma * (2 * randomUnitV s - 1)

/-- Computable floor of a rational (`Int./` is Euclidean division and `q.den > 0`,
so this is `⌊q⌋`; see `qfloor_eq_floor`). -/
def qfloor (q : ℚ) : ℤ := q.num / (q.den : ℤ)

/-- Python's `int()` applied to a float: truncation toward zero. -/
def pyInt (q : ℚ) : ℤ := q.num.tdiv q.den

/-- Python's `round(x, 2)`: rounding to a multiple of 1/100.  Python rounds ties to
even while this rounds ties up; the difference only matters when `100*x` is exactly
a half-integer and is irrelevant to every interval property proved below. -/
def round2 (q : ℚ) : ℚ := (qfloor (q * 100 + 1 / 2) : ℚ) / 100

/- Schema constants from src/schema.py. -/

def TEMP_EMAIL_DOMAINS : List String :=
  ["tempmail.net", "guerrillamail.com", "10minutemail.com",
   "throwaway.email", "mailinator.com", "temp-mail.org"]

def LEGITIMATE_EMAIL_DOMAINS : List String :=
  ["gmail.com", "yahoo.com", "hotmail.com", "outlook.com",
   "icloud.com", "protonmail.com", "aol.com"]

def HIGH_RISK_COUNTRIES : List String := ["RU", "NG", "CN", "PK", "ID", "UA", "VN"]

def LOW_RISK_COUNTRIES : List String :=
  ["US", "CA", "GB", "AU", "DE", "FR", "JP", "SE", "NL", "CH"]

def DEVICE_TYPES : List String := ["desktop", "mobile", "tablet"]

def PAYMENT_METHODS : List String := ["credit_card", "debit_card", "paypal", "crypto"]

def USER_AGENTS : List String :=
  ["Chrome/120.0", "Firefox/121.0", "Safari/17.0", "Edge/120.0",
   "Mobile Safari/16.0", "Chrome Mobile/120.0", "Bot/1.0", "curl/7.68.0"]

/-- The list comprehension `[ua for ua in USER_AGENTS if 'Bot' not in ua and 'curl'
not in ua]` used by the Legitimate and SuspiciousButLegitimate generators, written
out (it drops exactly the last two entries of `USER_AGENTS`). -/
def NON_BOT_USER_AGENTS : List String :=
  ["Chrome/120.0", "Firefox/121.0", "Safari/17.0", "Edge/120.0",
   "Mobile Safari/16.0", "Chrome Mobile/120.0"]

def VISA_BINS : List String := ["424242", "411111", "440000", "456789"]

def MASTERCARD_BINS : List String := ["540123", "555555", "522222", "510000"]

def AMEX_BINS : List String := ["378282", "371449", "370000"]

def DISCOVER_BINS : List String := ["601100", "644444", "650000"]

def ALL_CARD_BINS : List String := VISA_BINS ++ MASTERCARD_BINS ++ AMEX_BINS ++ DISCOVER_BINS

/-- The difficulty-tier label: `easy`, `medium`, `hard`, or `n/a`. -/
inductive Tier
  | easy
  | medium
  | hard
  | na
deriving DecidableEq, Repr

/-- The abuse-type label enumeration of `schema.TransactionRecord.abuse_type`. -/
inductive AbuseType
  | legitimate
  | suspicious_but_legitimate
  | fake_account
  | account_takeover
  | payment_fraud
deriving DecidableEq, Repr

/-- One synthesized transaction: the fields of `schema.TransactionRecord`.
`transaction_id` carries the numeric content of `TXN_<YYYYMMDD>_<hex>` as (day
index, hex suffix); `ip_address` carries the two random octets of the anonymized
`a.b.xxx.xxx` format; `device_id`/`user_id` carry their numeric suffixes. -/
structure TransactionRecord where
  transaction_id : ℤ × ℕ
  timestamp : ℤ
  user_id : ℕ
  order_amount : ℚ
  currency : String
  account_created_date : ℤ
  account_age_days : ℕ
  email_domain : String
  phone_verified : Bool
  email_verified : Bool
  profile_complete : Bool
  failed_login_attempts_24h : ℕ
  successful_logins_7d : ℕ
  password_reset_count_30d : ℕ
  device_id : ℕ
  ip_address : ℕ × ℕ
  ip_country : String
  user_agent : String
  device_type : String
  new_device : Bool
  vpn_proxy_detected : Bool
  payment_method : String
  card_bin : String
  card_country : String
  billing_country : String
  shipping_country : String
  billing_shipping_match : Bool
  cvv_check_result : String
  avs_result : String
  payment_processor_response : String
  days_since_account_first_purchase : ℕ
  total_orders_lifetime : ℕ
  orders_last_24h : ℕ
  orders_last_7d : ℕ
  avg_order_value : ℚ
  session_duration_seconds : ℕ
  cart_additions_session : ℕ
  high_risk_category : Bool
  is_abuse : Bool
  abuse_type : AbuseType
  abuse_confidence : ℚ
  difficulty_tier : Tier
deriving DecidableEq, Repr

/- Shared helpers of `BasePatternGenerator` (patterns.py lines 23-50). -/

/-- `_generate_ip_address`: two octet draws of the anonymized format
`{randint(1,255)}.{randint(0,255)}.xxx.xxx`; the caller advances the state by
`next.next`. -/
def generate_ip_addressV (s : RState) : ℕ × ℕ :=
  (randintV 1 255 s, randintV 0 255 s.next)

/-- `_generate_device_id`: `DEV_` plus an 8-character Faker hex suffix; the
caller advances the Faker stream with `nextF`. -/
def generate_device_idV (s : RState) : ℕ := s.fkr

/-- `_generate_transaction_id`: `TXN_<YYYYMMDD>_<hex>`, carried as the
timestamp's day index paired with the Faker hex suffix; the caller advances the
Faker stream with `nextF`. -/
def generate_transaction_idV (timestamp : ℤ) (s : RState) : ℤ × ℕ :=
  (timestamp / 86400, s.fkr)

/-- `_generate_user_id`: `USER_{randint(10000, 999999)}`. -/
def generate_user_idV (s : RState) : ℕ := randintV 10000 999999 s

namespace LegitimatePatternGenerator

/-- `LegitimatePatternGenerator.generate` (patterns.py lines 56-152).  The
`difficulty` parameter defaults to `'n/a'` in the source and is ignored. -/
def generate (timestamp : ℤ) (difficulty : Tier) (s : RState) :
    TransactionRecord × RState :=
  let _ := difficulty
  -- Account created 30-365 days ago
  let account_age_days := randintV 30 365 s; let s := s.next
  let account_created_date : ℤ := timestamp - account_age_days * 86400
  -- First purchase typically within first 30 days of account creation
  let days_since_first_purchase := randintV 0 (min 30 account_age_days) s; let s := s.next
  -- Established users have more orders
  let total_orders := randintV 1 50 s; let s := s.next
  -- Normal velocity
  let orders_24h := choicesWV [0, 1] [0.8, 0.2] 0 s; let s := s.next
  let orders_7d := randintV 0 5 s; let s := s.next
  -- Verified accounts (90% / 80% / 70%)
  let u1 := randomUnitV s; let s := s.next
  let email_verified := decide (u1 > 0.1)
  let u2 := randomUnitV s; let s := s.next
  let phone_verified := decide (u2 > 0.2)
  let u3 := randomUnitV s; let s := s.next
  let profile_complete := decide (u3 > 0.3)
  -- Low-risk email domain
  let email_domain := choiceV LEGITIMATE_EMAIL_DOMAINS "gmail.com" s; let s := s.next
  -- Consistent geographic location
  let country := choiceV LOW_RISK_COUNTRIES "US" s; let s := s.next
  let ip_country := country
  let u4 := randomUnitV s; let s := s.next
  -- `country if random.random() > 0.1 else random.choice(...)`: the value picked
  -- by the condition, and the stream advanced only when the else branch draws
  let card_country := if u4 > 0.1 then country else choiceV LOW_RISK_COUNTRIES "US" s
  let s := if u4 > 0.1 then s else s.next
  let billing_country := country
  let u5 := randomUnitV s; let s := s.next
  let shipping_country := if u5 > 0.05 then country else choiceV LOW_RISK_COUNTRIES "US" s
  let s := if u5 > 0.05 then s else s.next
  -- Normal order amounts
  let avg_order_value := uniformV 30.0 200.0 s; let s := s.next
  let order_amount := gaussV avg_order_value (avg_order_value * 0.3) s; let s := s.next
  let order_amount := max 10.0 order_amount
  -- Normal session behavior
  let session_duration := randintV 120 1800 s; let s := s.next
  let cart_additions := randintV 1 5 s; let s := s.next
  -- Clean payment verification
  let cvv_result := choicesWV ["pass", "not_checked"] [0.9, 0.1] "pass" s; let s := s.next
  let avs_result := choicesWV ["full_match", "partial_match"] [0.85, 0.15] "full_match" s
  let s := s.next
  -- Record fields, drawn in dict-literal order
  let transaction_id := generate_transaction_idV timestamp s; let s := s.nextF
  let user_id := generate_user_idV s; let s := s.next
  let u6 := randomUnitV s; let s := s.next
  let failed_login_attempts_24h := if u6 > 0.05 then 0 else randintV 1 2 s
  let s := if u6 > 0.05 then s else s.next
  let successful_logins_7d := randintV 3 20 s; let s := s.next
  let u7 := randomUnitV s; let s := s.next
  let password_reset_count_30d := if u7 > 0.1 then 0 else 1
  let device_id := generate_device_idV s; let s := s.nextF
  let ip_address := generate_ip_addressV s; let s := s.next.next
  let user_agent := choiceV NON_BOT_USER_AGENTS "Chrome/120.0" s; let s := s.next
  let device_type := choiceV DEVICE_TYPES "desktop" s; let s := s.next
  let u8 := randomUnitV s; let s := s.next
  let new_device := decide (u8 < 0.15)
  let u9 := randomUnitV s; let s := s.next
  let vpn_proxy_detected := decide (u9 < 0.05)
  let payment_method := choicesWV PAYMENT_METHODS [0.5, 0.3, 0.15, 0.05] "credit_card" s
  let s := s.next
  let card_bin := choiceV ALL_CARD_BINS "424242" s; let s := s.next
  let u10 := randomUnitV s; let s := s.next
  let high_risk_category := decide (u10 < 0.2)
  ({ transaction_id := transaction_id
     timestamp := timestamp
     user_id := user_id
     order_amount := round2 order_amount
     currency := "USD"
     account_created_date := account_created_date
     account_age_days := account_age_days
     email_domain := email_domain
     phone_verified := phone_verified
     email_verified := email_verified
     profile_complete := profile_complete
     failed_login_attempts_24h := failed_login_attempts_24h
     successful_logins_7d := successful_logins_7d
     password_reset_count_30d := password_reset_count_30d
     device_id := device_id
     ip_address := ip_address
     ip_country := ip_country
     user_agent := user_agent
     device_type := device_type
     new_device := new_device
     vpn_proxy_detected := vpn_proxy_detected
     payment_method := payment_method
     card_bin := card_bin
     card_country := card_country
     billing_country := billing_country
     shipping_country := shipping_country
     billing_shipping_match := decide (billing_country = shipping_country)
     cvv_check_result := cvv_result
     avs_result := avs_result
     payment_processor_response := "approved"
     days_since_account_first_purchase := days_since_first_purchase
     total_orders_lifetime := total_orders
     orders_last_24h := orders_24h
     orders_last_7d := orders_7d
     avg_order_value := round2 avg_order_value
     session_duration_seconds := session_duration
     cart_additions_session := cart_additions
     high_risk_category := high_risk_category
     is_abuse := false
     abuse_type := AbuseType.legitimate
     abuse_confidence := 0.0
     difficulty_tier := Tier.na }, s)

end LegitimatePatternGenerator

namespace FakeAccountPatternGenerator

/-- `FakeAccountPatternGenerator.generate` (patterns.py lines 158-286).  The
`difficulty` parameter defaults to `'easy'` in the source; the `else` branch of
the source's `if/elif/else` chains is the hard tier. -/
def generate (timestamp : ℤ) (difficulty : Tier) (s : RState) :
    TransactionRecord × RState :=
  -- Account age, email and verification rates vary by difficulty
  let (account_age_days, email_domain, email_verified, phone_verified,
       profile_complete, abuse_confidence, s) :=
    if difficulty = Tier.easy then
      -- Very obvious fake account (0-3 days)
      let account_age_days := randintV 0 3 s; let s := s.next
      let email_domain := choiceV TEMP_EMAIL_DOMAINS "tempmail.net" s; let s := s.next
      let u1 := randomUnitV s; let s := s.next
      let u2 := randomUnitV s; let s := s.next
      let u3 := randomUnitV s; let s := s.next
      let abuse_confidence := uniformV 0.85 0.98 s; let s := s.next
      (account_age_days, email_domain, decide (u1 < 0.05), decide (u2 < 0.02),
       decide (u3 < 0.05), abuse_confidence, s)
    else if difficulty = Tier.medium then
      -- Somewhat sophisticated (3-7 days, sometimes legit email)
      let account_age_days := randintV 3 7 s; let s := s.next
      let u0 := randomUnitV s; let s := s.next
      -- both branches draw exactly one choice, so the stream advances either way
      let email_domain :=
        if u0 < 0.6 then choiceV TEMP_EMAIL_DOMAINS "tempmail.net" s
        else choiceV LEGITIMATE_EMAIL_DOMAINS "gmail.com" s
      let s := s.next
      let u1 := randomUnitV s; let s := s.next
      let u2 := randomUnitV s; let s := s.next
      let u3 := randomUnitV s; let s := s.next
      let abuse_confidence := uniformV 0.65 0.80 s; let s := s.next
      (account_age_days, email_domain, decide (u1 < 0.3), decide (u2 < 0.15),
       decide (u3 < 0.2), abuse_confidence, s)
    else
      -- hard: well-aged fake account (7-30 days, looks more legitimate)
      let account_age_days := randintV 7 30 s; let s := s.next
      let email_domain := choiceV LEGITIMATE_EMAIL_DOMAINS "gmail.com" s; let s := s.next
      let u1 := randomUnitV s; let s := s.next
      let u2 := randomUnitV s; let s := s.next
      let u3 := randomUnitV s; let s := s.next
      let abuse_confidence := uniformV 0.45 0.65 s; let s := s.next
      (account_age_days, email_domain, decide (u1 < 0.6), decide (u2 < 0.4),
       decide (u3 < 0.5), abuse_confidence, s)
  let account_created_date : ℤ := timestamp - account_age_days * 86400
  -- First purchase timing varies by difficulty
  let (days_since_first_purchase, s) :=
    if difficulty = Tier.easy then (0, s)  -- Immediate purchase
    else if difficulty = Tier.medium then
      (randintV 0 (min 3 account_age_days) s, s.next)
    else (randintV 3 (min 14 account_age_days) s, s.next)
  -- New accounts have few orders
  let (total_orders, s) :=
    if difficulty = Tier.easy then (randintV 1 3 s, s.next) else (randintV 1 5 s, s.next)
  -- Geographic indicators
  let country := choiceV (LOW_RISK_COUNTRIES ++ HIGH_RISK_COUNTRIES) "US" s; let s := s.next
  let ip_country := country
  let card_country := choiceV LOW_RISK_COUNTRIES "US" s; let s := s.next
  let billing_country := card_country
  let shipping_country := choiceV LOW_RISK_COUNTRIES "US" s; let s := s.next
  -- Order amount - varies widely
  let order_amount := uniformV 50.0 500.0 s; let s := s.next
  -- Session behavior varies by difficulty
  let (session_duration, cart_additions, s) :=
    if difficulty = Tier.easy then
      let session_duration := randintV 30 180 s; let s := s.next  -- Very rushed
      let cart_additions := randintV 1 3 s; let s := s.next
      (session_duration, cart_additions, s)
    else if difficulty = Tier.medium then
      let session_duration := randintV 120 600 s; let s := s.next
      let cart_additions := randintV 1 5 s; let s := s.next
      (session_duration, cart_additions, s)
    else
      let session_duration := randintV 180 1200 s; let s := s.next
      let cart_additions := randintV 1 7 s; let s := s.next
      (session_duration, cart_additions, s)
  -- Payment verification varies by difficulty
  let (cvv_result, avs_result, s) :=
    if difficulty = Tier.easy then
      let cvv_result := choicesWV ["pass", "fail", "not_checked"] [0.5, 0.3, 0.2] "pass" s
      let s := s.next
      let avs_result :=
        choicesWV ["full_match", "partial_match", "no_match"] [0.3, 0.3, 0.4] "full_match" s
      let s := s.next
      (cvv_result, avs_result, s)
    else if difficulty = Tier.medium then
      let cvv_result := choicesWV ["pass", "fail", "not_checked"] [0.7, 0.2, 0.1] "pass" s
      let s := s.next
      let avs_result :=
        choicesWV ["full_match", "partial_match", "no_match"] [0.5, 0.3, 0.2] "full_match" s
      let s := s.next
      (cvv_result, avs_result, s)
    else
      let cvv_result := choicesWV ["pass", "not_checked"] [0.9, 0.1] "pass" s
      let s := s.next
      let avs_result := choicesWV ["full_match", "partial_match"] [0.7, 0.3] "full_match" s
      let s := s.next
      (cvv_result, avs_result, s)
  -- Record fields, drawn in dict-literal order
  let transaction_id := generate_transaction_idV timestamp s; let s := s.nextF
  let user_id := generate_user_idV s; let s := s.next
  let successful_logins_7d := randintV 1 5 s; let s := s.next
  let device_id := generate_device_idV s; let s := s.nextF
  let ip_address := generate_ip_addressV s; let s := s.next.next
  let user_agent := choiceV USER_AGENTS "Chrome/120.0" s; let s := s.next
  let device_type := choiceV DEVICE_TYPES "desktop" s; let s := s.next
  let u4 := randomUnitV s; let s := s.next
  let vpn_proxy_detected := decide (u4 < 0.3)
  let payment_method := choicesWV PAYMENT_METHODS [0.6, 0.2, 0.15, 0.05] "credit_card" s
  let s := s.next
  let card_bin := choiceV ALL_CARD_BINS "424242" s; let s := s.next
  let u5 := randomUnitV s; let s := s.next
  -- `'billing_shipping_match': random.random() < 0.4` (line 267): an independent
  -- 40% draw, not the billing/shipping country equality
  let billing_shipping_match := decide (u5 < 0.4)
  let payment_processor_response :=
    choicesWV ["approved", "suspected_fraud"] [0.7, 0.3] "approved" s
  let s := s.next
  let orders_24h := randintV 1 3 s; let s := s.next
  let u6 := randomUnitV s; let s := s.next
  let high_risk_category := decide (u6 < 0.5)
  ({ transaction_id := transaction_id
     timestamp := timestamp
     user_id := user_id
     order_amount := round2 order_amount
     currency := "USD"
     account_created_date := account_created_date
     account_age_days := account_age_days
     email_domain := email_domain
     phone_verified := phone_verified
     email_verified := email_verified
     profile_complete := profile_complete
     failed_login_attempts_24h := 0  -- No failed logins for new accounts
     successful_logins_7d := successful_logins_7d
     password_reset_count_30d := 0
     device_id := device_id
     ip_address := ip_address
     ip_country := ip_country
     user_agent := user_agent
     device_type := device_type
     new_device := true  -- Always new device for new account
     vpn_proxy_detected := vpn_proxy_detected
     payment_method := payment_method
     card_bin := card_bin
     card_country := card_country
     billing_country := billing_country
     shipping_country := shipping_country
     billing_shipping_match := billing_shipping_match
     cvv_check_result := cvv_result
     avs_result := avs_result
     payment_processor_response := payment_processor_response
     days_since_account_first_purchase := days_since_first_purchase
     total_orders_lifetime := total_orders
     orders_last_24h := orders_24h
     orders_last_7d := total_orders
     avg_order_value := round2 order_amount
     session_duration_seconds := session_duration
     cart_additions_session := cart_additions
     high_risk_category := high_risk_category
     is_abuse := true
     abuse_type := AbuseType.fake_account
     abuse_confidence := round2 abuse_confidence
     difficulty_tier := difficulty }, s)

end FakeAccountPatternGenerator

namespace AccountTakeoverPatternGenerator

/-- `AccountTakeoverPatternGenerator.generate` (patterns.py lines 292-440).  The
`difficulty` parameter defaults to `'easy'` in the source. -/
def generate (timestamp : ℤ) (difficulty : Tier) (s : RState) :
    TransactionRecord × RState :=
  -- Older, established accounts (3 months to 2 years)
  let account_age_days := randintV 90 730 s; let s := s.next
  let account_created_date : ℤ := timestamp - account_age_days * 86400
  -- Account has history
  let total_orders := randintV 5 50 s; let s := s.next
  let days_since_first_purchase := randintV 30 (account_age_days - 30) s; let s := s.next
  -- Verified legitimate account
  let email_verified := true
  let u1 := randomUnitV s; let s := s.next
  let phone_verified := decide (u1 > 0.3)
  let u2 := randomUnitV s; let s := s.next
  let profile_complete := decide (u2 > 0.2)
  -- Legitimate email domain
  let email_domain := choiceV LEGITIMATE_EMAIL_DOMAINS "gmail.com" s; let s := s.next
  -- Login activity varies by difficulty
  let (failed_login_attempts_24h, password_reset_count_30d, abuse_confidence, s) :=
    if difficulty = Tier.easy then
      -- Clear signs of takeover: many failed logins, password reset
      let failed := randintV 5 15 s; let s := s.next
      let resets := choicesWV [1, 2] [0.7, 0.3] 1 s; let s := s.next
      let abuse_confidence := uniformV 0.85 0.97 s; let s := s.next
      (failed, resets, abuse_confidence, s)
    else if difficulty = Tier.medium then
      let failed := randintV 2 6 s; let s := s.next
      let resets := choicesWV [0, 1] [0.5, 0.5] 0 s; let s := s.next
      let abuse_confidence := uniformV 0.65 0.80 s; let s := s.next
      (failed, resets, abuse_confidence, s)
    else
      -- hard: credential stuffing - no failed logins, looks like normal login
      let abuse_confidence := uniformV 0.45 0.65 s; let s := s.next
      (0, 0, abuse_confidence, s)
  -- Geographic patterns vary by difficulty
  let original_country := choiceV LOW_RISK_COUNTRIES "US" s; let s := s.next
  let (suspicious_country, vpn_detected, s) :=
    if difficulty = Tier.easy then
      -- Clear geographic anomaly - high-risk country
      let suspicious_country := choiceV HIGH_RISK_COUNTRIES "RU" s; let s := s.next
      let u := randomUnitV s; let s := s.next
      (suspicious_country, decide (u < 0.5), s)
    else if difficulty = Tier.medium then
      let suspicious_country := choiceV LOW_RISK_COUNTRIES "US" s; let s := s.next
      let u := randomUnitV s; let s := s.next
      (suspicious_country, decide (u < 0.4), s)
    else
      -- hard: same country or VPN masking location
      let u0 := randomUnitV s; let s := s.next
      let suspicious_country :=
        if u0 < 0.6 then original_country else choiceV LOW_RISK_COUNTRIES "US" s
      let s := if u0 < 0.6 then s else s.next
      let u := randomUnitV s; let s := s.next
      (suspicious_country, decide (u < 0.2), s)
  let ip_country := suspicious_country
  let card_country := original_country
  let billing_country := original_country
  -- Shipping varies by difficulty
  let (shipping_country, s) :=
    if difficulty = Tier.easy then
      (choiceV (HIGH_RISK_COUNTRIES ++ LOW_RISK_COUNTRIES) "US" s, s.next)
    else if difficulty = Tier.medium then
      let u := randomUnitV s; let s := s.next
      (if u > 0.4 then suspicious_country else original_country, s)
    else
      let u := randomUnitV s; let s := s.next
      (if u > 0.3 then original_country else suspicious_country, s)
  -- Order amount varies by difficulty
  let historical_avg := uniformV 40.0 150.0 s; let s := s.next
  let (order_amount, s) :=
    if difficulty = Tier.easy then
      let m := uniformV 2.0 4.0 s; let s := s.next
      (historical_avg * m, s)
    else if difficulty = Tier.medium then
      let m := uniformV 1.3 2.5 s; let s := s.next
      (historical_avg * m, s)
    else
      let m := uniformV 0.9 1.8 s; let s := s.next
      (historical_avg * m, s)
  -- Session behavior varies by difficulty
  let (session_duration, cart_additions, s) :=
    if difficulty = Tier.easy then
      let session_duration := randintV 60 300 s; let s := s.next
      let cart_additions := randintV 1 3 s; let s := s.next
      (session_duration, cart_additions, s)
    else if difficulty = Tier.medium then
      let session_duration := randintV 180 600 s; let s := s.next
      let cart_additions := randintV 2 5 s; let s := s.next
      (session_duration, cart_additions, s)
    else
      let session_duration := randintV 300 1200 s; let s := s.next
      let cart_additions := randintV 2 6 s; let s := s.next
      (session_duration, cart_additions, s)
  -- Payment verification varies by difficulty
  let (cvv_result, avs_result, s) :=
    if difficulty = Tier.easy then
      let cvv_result := choicesWV ["pass", "fail", "not_checked"] [0.4, 0.4, 0.2] "pass" s
      let s := s.next
      let avs_result :=
        choicesWV ["full_match", "partial_match", "no_match"] [0.3, 0.3, 0.4] "full_match" s
      let s := s.next
      (cvv_result, avs_result, s)
    else if difficulty = Tier.medium then
      let cvv_result := choicesWV ["pass", "fail", "not_checked"] [0.6, 0.2, 0.2] "pass" s
      let s := s.next
      let avs_result :=
        choicesWV ["full_match", "partial_match", "no_match"] [0.5, 0.3, 0.2] "full_match" s
      let s := s.next
      (cvv_result, avs_result, s)
    else
      let cvv_result := choicesWV ["pass", "not_checked"] [0.85, 0.15] "pass" s
      let s := s.next
      let avs_result := choicesWV ["full_match", "partial_match"] [0.7, 0.3] "full_match" s
      let s := s.next
      (cvv_result, avs_result, s)
  -- Record fields, drawn in dict-literal order
  let transaction_id := generate_transaction_idV timestamp s; let s := s.nextF
  let user_id := generate_user_idV s; let s := s.next
  let successful_logins_7d := randintV 1 3 s; let s := s.next
  let device_id := generate_device_idV s; let s := s.nextF
  let ip_address := generate_ip_addressV s; let s := s.next.next
  let user_agent := choiceV USER_AGENTS "Chrome/120.0" s; let s := s.next
  let device_type := choiceV DEVICE_TYPES "desktop" s; let s := s.next
  -- `True if difficulty == 'easy' else (random.random() < 0.7)`
  let (new_device, s) :=
    if difficulty = Tier.easy then (true, s)
    else
      let u := randomUnitV s; let s := s.next
      (decide (u < 0.7), s)
  let payment_method := choicesWV PAYMENT_METHODS [0.5, 0.3, 0.15, 0.05] "credit_card" s
  let s := s.next
  let card_bin := choiceV ALL_CARD_BINS "424242" s; let s := s.next
  let payment_processor_response :=
    choicesWV ["approved", "suspected_fraud"] [0.6, 0.4] "approved" s
  let s := s.next
  let orders_24h := randintV 1 2 s; let s := s.next
  let orders_7d := randintV 1 3 s; let s := s.next
  -- `random.random() < 0.6 if difficulty == 'easy' else (random.random() < 0.4)`
  let (high_risk_category, s) :=
    if difficulty = Tier.easy then
      let u := randomUnitV s; let s := s.next
      (decide (u < 0.6), s)
    else
      let u := randomUnitV s; let s := s.next
      (decide (u < 0.4), s)
  ({ transaction_id := transaction_id
     timestamp := timestamp
     user_id := user_id
     order_amount := round2 order_amount
     currency := "USD"
     account_created_date := account_created_date
     account_age_days := account_age_days
     email_domain := email_domain
     phone_verified := phone_verified
     email_verified := email_verified
     profile_complete := profile_complete
     failed_login_attempts_24h := failed_login_attempts_24h
     successful_logins_7d := successful_logins_7d
     password_reset_count_30d := password_reset_count_30d
     device_id := device_id
     ip_address := ip_address
     ip_country := ip_country
     user_agent := user_agent
     device_type := device_type
     new_device := new_device
     vpn_proxy_detected := vpn_detected
     payment_method := payment_method
     card_bin := card_bin
     card_country := card_country
     billing_country := billing_country
     shipping_country := shipping_country
     billing_shipping_match := decide (billing_country = shipping_country)
     cvv_check_result := cvv_result
     avs_result := avs_result
     payment_processor_response := payment_processor_response
     days_since_account_first_purchase := days_since_first_purchase
     total_orders_lifetime := total_orders
     orders_last_24h := orders_24h
     orders_last_7d := orders_7d
     avg_order_value := round2 historical_avg
     session_duration_seconds := session_duration
     cart_additions_session := cart_additions
     high_risk_category := high_risk_category
     is_abuse := true
     abuse_type := AbuseType.account_takeover
     abuse_confidence := round2 abuse_confidence
     difficulty_tier := difficulty }, s)

end AccountTakeoverPatternGenerator

namespace PaymentFraudPatternGenerator

/-- `PaymentFraudPatternGenerator.generate` (patterns.py lines 446-579).  The
`difficulty` parameter defaults to `'easy'` in the source. -/
def generate (timestamp : ℤ) (difficulty : Tier) (s : RState) :
    TransactionRecord × RState :=
  -- Account age varies by difficulty
  let (account_age_days, abuse_confidence, s) :=
    if difficulty = Tier.easy then
      let account_age_days := randintV 1 30 s; let s := s.next  -- Newer accounts
      let abuse_confidence := uniformV 0.85 0.97 s; let s := s.next
      (account_age_days, abuse_confidence, s)
    else if difficulty = Tier.medium then
      let account_age_days := randintV 15 90 s; let s := s.next
      let abuse_confidence := uniformV 0.65 0.80 s; let s := s.next
      (account_age_days, abuse_confidence, s)
    else
      let account_age_days := randintV 60 180 s; let s := s.next
      let abuse_confidence := uniformV 0.45 0.65 s; let s := s.next
      (account_age_days, abuse_confidence, s)
  let account_created_date : ℤ := timestamp - account_age_days * 86400
  let days_since_first_purchase := randintV 0 (min 30 account_age_days) s; let s := s.next
  let total_orders := randintV 1 10 s; let s := s.next
  -- Verification varies by difficulty
  let (email_verified, phone_verified, profile_complete, email_domain, s) :=
    if difficulty = Tier.easy then
      let u1 := randomUnitV s; let s := s.next
      let u2 := randomUnitV s; let s := s.next
      let u3 := randomUnitV s; let s := s.next
      let u0 := randomUnitV s; let s := s.next
      -- both branches draw exactly one choice, so the stream advances either way
      let email_domain :=
        if u0 < 0.5 then choiceV TEMP_EMAIL_DOMAINS "tempmail.net" s
        else choiceV LEGITIMATE_EMAIL_DOMAINS "gmail.com" s
      let s := s.next
      (decide (u1 < 0.3), decide (u2 < 0.2), decide (u3 < 0.3), email_domain, s)
    else if difficulty = Tier.medium then
      let u1 := randomUnitV s; let s := s.next
      let u2 := randomUnitV s; let s := s.next
      let u3 := randomUnitV s; let s := s.next
      let email_domain := choiceV LEGITIMATE_EMAIL_DOMAINS "gmail.com" s; let s := s.next
      (decide (u1 < 0.6), decide (u2 < 0.4), decide (u3 < 0.5), email_domain, s)
    else
      let u1 := randomUnitV s; let s := s.next
      let u2 := randomUnitV s; let s := s.next
      let u3 := randomUnitV s; let s := s.next
      let email_domain := choiceV LEGITIMATE_EMAIL_DOMAINS "gmail.com" s; let s := s.next
      (decide (u1 < 0.8), decide (u2 < 0.7), decide (u3 < 0.7), email_domain, s)
  -- Geographic mismatches vary by difficulty
  let card_country := choiceV LOW_RISK_COUNTRIES "US" s; let s := s.next
  let (ip_country, billing_country, shipping_country, s) :=
    if difficulty = Tier.easy then
      -- Multiple clear mismatches, re-rolled against filtered candidate sets
      let ip_country := choiceV HIGH_RISK_COUNTRIES "RU" s; let s := s.next
      let billing_country :=
        choiceV (LOW_RISK_COUNTRIES.filter (fun c => c ≠ card_country)) "US" s
      let s := s.next
      let shipping_country :=
        choiceV (LOW_RISK_COUNTRIES.filter
          (fun c => c ≠ card_country ∧ c ≠ billing_country)) "US" s
      let s := s.next
      (ip_country, billing_country, shipping_country, s)
    else if difficulty = Tier.medium then
      -- One or two mismatches
      let ip_country := choiceV (LOW_RISK_COUNTRIES ++ HIGH_RISK_COUNTRIES) "US" s
      let s := s.next
      let u := randomUnitV s; let s := s.next
      let billing_country :=
        if u < 0.5 then card_country else choiceV LOW_RISK_COUNTRIES "US" s
      let s := if u < 0.5 then s else s.next
      let shipping_country := choiceV LOW_RISK_COUNTRIES "US" s; let s := s.next
      (ip_country, billing_country, shipping_country, s)
    else
      -- hard: only shipping mismatch (could be gift)
      let ip_country := choiceV LOW_RISK_COUNTRIES "US" s; let s := s.next
      let billing_country := card_country
      let u := randomUnitV s; let s := s.next
      let shipping_country :=
        if u < 0.7 then choiceV LOW_RISK_COUNTRIES "US" s else card_country
      let s := if u < 0.7 then s.next else s
      (ip_country, billing_country, shipping_country, s)
  -- Order amount varies by difficulty
  let (order_amount, s) :=
    if difficulty = Tier.easy then (uniformV 500.0 2000.0 s, s.next)
    else if difficulty = Tier.medium then (uniformV 200.0 800.0 s, s.next)
    else (uniformV 100.0 500.0 s, s.next)
  -- Session behavior
  let session_duration := randintV 60 600 s; let s := s.next
  let cart_additions := randintV 1 10 s; let s := s.next
  -- Payment verification varies significantly by difficulty
  let (cvv_result, avs_result, orders_24h, s) :=
    if difficulty = Tier.easy then
      let cvv_result := choicesWV ["pass", "fail", "not_checked"] [0.2, 0.6, 0.2] "pass" s
      let s := s.next
      let avs_result :=
        choicesWV ["full_match", "partial_match", "no_match"] [0.2, 0.2, 0.6] "full_match" s
      let s := s.next
      let orders_24h := randintV 3 8 s; let s := s.next  -- Multiple attempts
      (cvv_result, avs_result, orders_24h, s)
    else if difficulty = Tier.medium then
      let cvv_result := choicesWV ["pass", "fail", "not_checked"] [0.5, 0.3, 0.2] "pass" s
      let s := s.next
      let avs_result :=
        choicesWV ["full_match", "partial_match", "no_match"] [0.4, 0.4, 0.2] "full_match" s
      let s := s.next
      let orders_24h := randintV 1 3 s; let s := s.next
      (cvv_result, avs_result, orders_24h, s)
    else
      let cvv_result := choicesWV ["pass", "not_checked"] [0.85, 0.15] "pass" s
      let s := s.next
      let avs_result := choicesWV ["full_match", "partial_match"] [0.6, 0.4] "full_match" s
      let s := s.next
      let orders_24h := choicesWV [0, 1] [0.7, 0.3] 0 s; let s := s.next
      (cvv_result, avs_result, orders_24h, s)
  -- Record fields, drawn in dict-literal order
  let transaction_id := generate_transaction_idV timestamp s; let s := s.nextF
  let user_id := generate_user_idV s; let s := s.next
  let failed_login_attempts_24h := randintV 0 3 s; let s := s.next
  let successful_logins_7d := randintV 1 10 s; let s := s.next
  let password_reset_count_30d := choicesWV [0, 1] [0.8, 0.2] 0 s; let s := s.next
  let device_id := generate_device_idV s; let s := s.nextF
  let ip_address := generate_ip_addressV s; let s := s.next.next
  let user_agent := choiceV USER_AGENTS "Chrome/120.0" s; let s := s.next
  let device_type := choiceV DEVICE_TYPES "desktop" s; let s := s.next
  let u4 := randomUnitV s; let s := s.next
  let new_device := decide (u4 < 0.5)
  let u5 := randomUnitV s; let s := s.next
  let vpn_proxy_detected := decide (u5 < 0.35)
  let payment_method := choicesWV PAYMENT_METHODS [0.7, 0.2, 0.08, 0.02] "credit_card" s
  let s := s.next
  let card_bin := choiceV ALL_CARD_BINS "424242" s; let s := s.next
  let payment_processor_response :=
    choicesWV ["approved", "declined", "suspected_fraud"] [0.5, 0.2, 0.3] "approved" s
  let s := s.next
  let orders_7d := randintV orders_24h (orders_24h + 5) s; let s := s.next
  let m := uniformV 0.7 1.3 s; let s := s.next
  let avg_order_value := round2 (order_amount * m)
  -- `random.random() < (0.9 if easy else (0.6 if medium else 0.3))`
  let u6 := randomUnitV s; let s := s.next
  let high_risk_category :=
    decide (u6 < (if difficulty = Tier.easy then 0.9
                  else if difficulty = Tier.medium then 0.6 else 0.3))
  ({ transaction_id := transaction_id
     timestamp := timestamp
     user_id := user_id
     order_amount := round2 order_amount
     currency := "USD"
     account_created_date := account_created_date
     account_age_days := account_age_days
     email_domain := email_domain
     phone_verified := phone_verified
     email_verified := email_verified
     profile_complete := profile_complete
     failed_login_attempts_24h := failed_login_attempts_24h
     successful_logins_7d := successful_logins_7d
     password_reset_count_30d := password_reset_count_30d
     device_id := device_id
     ip_address := ip_address
     ip_country := ip_country
     user_agent := user_agent
     device_type := device_type
     new_device := new_device
     vpn_proxy_detected := vpn_proxy_detected
     payment_method := payment_method
     card_bin := card_bin
     card_country := card_country
     billing_country := billing_country
     shipping_country := shipping_country
     billing_shipping_match := decide (billing_country = shipping_country)
     cvv_check_result := cvv_result
     avs_result := avs_result
     payment_processor_response := payment_processor_response
     days_since_account_first_purchase := days_since_first_purchase
     total_orders_lifetime := total_orders
     orders_last_24h := orders_24h
     orders_last_7d := orders_7d
     avg_order_value := avg_order_value
     session_duration_seconds := session_duration
     cart_additions_session := cart_additions
     high_risk_category := high_risk_category
     is_abuse := true
     abuse_type := AbuseType.payment_fraud
     abuse_confidence := round2 abuse_confidence
     difficulty_tier := difficulty }, s)

end PaymentFraudPatternGenerator

namespace SuspiciousButLegitimatePatternGenerator

/-- The variables assigned by one branch of the `behavior_type` if/elif chain of
`SuspiciousButLegitimatePatternGenerator.generate` (patterns.py lines 616-675),
together with the stream state after the branch's draws. -/
structure BehaviorOutcome where
  ip_country : String
  card_country : String
  billing_country : String
  shipping_country : String
  vpn_proxy_detected : Bool
  new_device : Bool
  order_amount : ℚ
  high_risk_items : Bool
  abuse_confidence : ℚ
  orders_24h : ℕ
  orders_7d : ℕ
  after : RState

/-- The `vpn_user` branch: privacy-conscious user always on VPN. -/
def vpn_user_branch (home_country : String) (s : RState) : BehaviorOutcome :=
  let ip_country := choiceV (LOW_RISK_COUNTRIES ++ HIGH_RISK_COUNTRIES) "US" s
  let s := s.next
  let u := randomUnitV s; let s := s.next
  let order_amount := uniformV 30.0 300.0 s; let s := s.next
  let uh := randomUnitV s; let s := s.next
  let abuse_confidence := uniformV 0.45 0.65 s; let s := s.next
  { ip_country := ip_country, card_country := home_country,
    billing_country := home_country, shipping_country := home_country,
    vpn_proxy_detected := true, new_device := decide (u < 0.2),
    order_amount := order_amount, high_risk_items := decide (uh < 0.3),
    abuse_confidence := abuse_confidence, orders_24h := 0, orders_7d := 0,
    after := s }

/-- The `traveler` branch: legitimate user traveling/relocated. -/
def traveler_branch (home_country : String) (s : RState) : BehaviorOutcome :=
  let ip_country := choiceV LOW_RISK_COUNTRIES "US" s; let s := s.next
  let shipping_country := choiceV [home_country, ip_country] "US" s; let s := s.next
  let uv := randomUnitV s; let s := s.next
  let u := randomUnitV s; let s := s.next
  let order_amount := uniformV 40.0 400.0 s; let s := s.next
  let uh := randomUnitV s; let s := s.next
  let abuse_confidence := uniformV 0.40 0.60 s; let s := s.next
  { ip_country := ip_country, card_country := home_country,
    billing_country := home_country, shipping_country := shipping_country,
    vpn_proxy_detected := decide (uv < 0.3), new_device := decide (u < 0.4),
    order_amount := order_amount, high_risk_items := decide (uh < 0.2),
    abuse_confidence := abuse_confidence, orders_24h := 0, orders_7d := 0,
    after := s }

/-- The `gift_buyer` branch: buying a gift for someone else. -/
def gift_buyer_branch (home_country : String) (s : RState) : BehaviorOutcome :=
  let shipping_country := choiceV LOW_RISK_COUNTRIES "US" s; let s := s.next
  let uv := randomUnitV s; let s := s.next
  let u := randomUnitV s; let s := s.next
  let order_amount := uniformV 50.0 500.0 s; let s := s.next
  let uh := randomUnitV s; let s := s.next
  let abuse_confidence := uniformV 0.35 0.55 s; let s := s.next
  { ip_country := home_country, card_country := home_country,
    billing_country := home_country, shipping_country := shipping_country,
    vpn_proxy_detected := decide (uv < 0.1), new_device := decide (u < 0.15),
    order_amount := order_amount, high_risk_items := decide (uh < 0.4),
    abuse_confidence := abuse_confidence, orders_24h := 0, orders_7d := 0,
    after := s }

/-- The `power_shopper` branch: high-velocity legitimate user (the only branch
that assigns its own order velocity). -/
def power_shopper_branch (home_country : String) (s : RState) : BehaviorOutcome :=
  let uv := randomUnitV s; let s := s.next
  let u := randomUnitV s; let s := s.next
  let order_amount := uniformV 100.0 800.0 s; let s := s.next
  let uh := randomUnitV s; let s := s.next
  let abuse_confidence := uniformV 0.40 0.65 s; let s := s.next
  let orders_24h := randintV 2 5 s; let s := s.next  -- Many orders
  let orders_7d := randintV 5 15 s; let s := s.next
  { ip_country := home_country, card_country := home_country,
    billing_country := home_country, shipping_country := home_country,
    vpn_proxy_detected := decide (uv < 0.15), new_device := decide (u < 0.1),
    order_amount := order_amount, high_risk_items := decide (uh < 0.5),
    abuse_confidence := abuse_confidence, orders_24h := orders_24h,
    orders_7d := orders_7d, after := s }

/-- The `expat` branch: living abroad, shipping to a foreign address regularly. -/
def expat_branch (home_country : String) (s : RState) : BehaviorOutcome :=
  let ip_country := choiceV LOW_RISK_COUNTRIES "US" s; let s := s.next
  let uv := randomUnitV s; let s := s.next
  let u := randomUnitV s; let s := s.next
  let order_amount := uniformV 40.0 400.0 s; let s := s.next
  let uh := randomUnitV s; let s := s.next
  let abuse_confidence := uniformV 0.35 0.60 s; let s := s.next
  { ip_country := ip_country, card_country := home_country,
    billing_country := home_country, shipping_country := ip_country,
    vpn_proxy_detected := decide (uv < 0.2), new_device := decide (u < 0.2),
    order_amount := order_amount, high_risk_items := decide (uh < 0.25),
    abuse_confidence := abuse_confidence, orders_24h := 0, orders_7d := 0,
    after := s }

/-- `SuspiciousButLegitimatePatternGenerator.generate` (patterns.py lines 591-736).
The `difficulty` parameter defaults to `'n/a'` in the source and is ignored. -/
def generate (timestamp : ℤ) (difficulty : Tier) (s : RState) :
    TransactionRecord × RState :=
  let _ := difficulty
  -- Choose suspicious behavior type
  let behavior_type :=
    choiceV ["vpn_user", "traveler", "gift_buyer", "power_shopper", "expat"] "vpn_user" s
  let s := s.next
  -- Established legitimate account
  let account_age_days := randintV 60 730 s; let s := s.next
  let account_created_date : ℤ := timestamp - account_age_days * 86400
  let days_since_first_purchase := randintV 0 (min 60 (account_age_days - 10)) s
  let s := s.next
  let total_orders := randintV 5 40 s; let s := s.next
  -- Verified legitimate account
  let email_verified := true
  let u1 := randomUnitV s; let s := s.next
  let phone_verified := decide (u1 > 0.2)
  let u2 := randomUnitV s; let s := s.next
  let profile_complete := decide (u2 > 0.3)
  let email_domain := choiceV LEGITIMATE_EMAIL_DOMAINS "gmail.com" s; let s := s.next
  -- Base country
  let home_country := choiceV LOW_RISK_COUNTRIES "US" s; let s := s.next
  -- The behavior_type if/elif chain
  let b :=
    if behavior_type = "vpn_user" then vpn_user_branch home_country s
    else if behavior_type = "traveler" then traveler_branch home_country s
    else if behavior_type = "gift_buyer" then gift_buyer_branch home_country s
    else if behavior_type = "power_shopper" then power_shopper_branch home_country s
    else expat_branch home_country s
  let ip_country := b.ip_country
  let card_country := b.card_country
  let billing_country := b.billing_country
  let shipping_country := b.shipping_country
  let vpn_proxy_detected := b.vpn_proxy_detected
  let new_device := b.new_device
  let order_amount := b.order_amount
  let high_risk_items := b.high_risk_items
  let abuse_confidence := b.abuse_confidence
  let s := b.after
  -- Set default velocity for non-power-shoppers (two draws in that case)
  let orders_24h :=
    if behavior_type ≠ "power_shopper" then choicesWV [0, 1] [0.6, 0.4] 0 s
    else b.orders_24h
  let orders_7d :=
    if behavior_type ≠ "power_shopper" then randintV 1 4 s.next else b.orders_7d
  let s := if behavior_type ≠ "power_shopper" then s.next.next else s
  -- Normal session behavior (legitimate users take time)
  let session_duration := randintV 180 1800 s; let s := s.next
  let cart_additions := randintV 1 6 s; let s := s.next
  -- Clean payment verification (legitimate payment methods)
  let cvv_result := choicesWV ["pass", "not_checked"] [0.9, 0.1] "pass" s; let s := s.next
  let avs_result := choicesWV ["full_match", "partial_match"] [0.8, 0.2] "full_match" s
  let s := s.next
  -- Historical average
  let avg_order_value := uniformV 50.0 250.0 s; let s := s.next
  -- Record fields, drawn in dict-literal order
  let transaction_id := generate_transaction_idV timestamp s; let s := s.nextF
  let user_id := generate_user_idV s; let s := s.next
  let failed_login_attempts_24h := choicesWV [0, 1] [0.95, 0.05] 0 s; let s := s.next
  let successful_logins_7d := randintV 3 15 s; let s := s.next
  let password_reset_count_30d := choicesWV [0, 1] [0.9, 0.1] 0 s; let s := s.next
  let device_id := generate_device_idV s; let s := s.nextF
  let ip_address := generate_ip_addressV s; let s := s.next.next
  let user_agent := choiceV NON_BOT_USER_AGENTS "Chrome/120.0" s; let s := s.next
  let device_type := choiceV DEVICE_TYPES "desktop" s; let s := s.next
  let payment_method := choicesWV PAYMENT_METHODS [0.5, 0.3, 0.15, 0.05] "credit_card" s
  let s := s.next
  let card_bin := choiceV ALL_CARD_BINS "424242" s; let s := s.next
  ({ transaction_id := transaction_id
     timestamp := timestamp
     user_id := user_id
     order_amount := round2 order_amount
     currency := "USD"
     account_created_date := account_created_date
     account_age_days := account_age_days
     email_domain := email_domain
     phone_verified := phone_verified
     email_verified := email_verified
     profile_complete := profile_complete
     failed_login_attempts_24h := failed_login_attempts_24h
     successful_logins_7d := successful_logins_7d
     password_reset_count_30d := password_reset_count_30d
     device_id := device_id
     ip_address := ip_address
     ip_country := ip_country
     user_agent := user_agent
     device_type := device_type
     new_device := new_device
     vpn_proxy_detected := vpn_proxy_detected
     payment_method := payment_method
     card_bin := card_bin
     card_country := card_country
     billing_country := billing_country
     shipping_country := shipping_country
     billing_shipping_match := decide (billing_country = shipping_country)
     cvv_check_result := cvv_result
     avs_result := avs_result
     payment_processor_response := "approved"
     days_since_account_first_purchase := days_since_first_purchase
     total_orders_lifetime := total_orders
     orders_last_24h := orders_24h
     orders_last_7d := orders_7d
     avg_order_value := round2 avg_order_value
     session_duration_seconds := session_duration
     cart_additions_session := cart_additions
     high_risk_category := high_risk_items
     is_abuse := false  -- Actually legitimate!
     abuse_type := AbuseType.suspicious_but_legitimate
     abuse_confidence := round2 abuse_confidence
     difficulty_tier := Tier.na }, s)  -- Not fraud, so no difficulty tier

end SuspiciousButLegitimatePatternGenerator

/-- `generate_timestamp(start_date, end_date)` (generate_synthetic_data.py lines
32-39): `start_date + randint(0, int(total_seconds(end_date - start_date)))`. -/
def generate_timestamp (start_date end_date : ℤ) (s : RState) : ℤ × RState :=
  let n := randintV 0 (end_date - start_date).toNat s
  (start_date + n, s.next)

/-- One per-archetype generation loop of `generate_dataset` (`for i in
range(count): ...`): draw a timestamp, then one record, `n` times, appending
records in generation order. -/
def genLoop (gen : ℤ → RState → TransactionRecord × RState)
    (start_date end_date : ℤ) : ℕ → RState → List TransactionRecord × RState
  | 0, s => ([], s)
  | n + 1, s =>
    let t := generate_timestamp start_date end_date s
    let r := gen t.1 t.2
    let rest := genLoop gen start_date end_date n r.2
    (r.1 :: rest.1, rest.2)

/-- The first `n` raw values of the stream starting at `x`. -/
def keyStream (x : ℕ) : ℕ → List ℕ
  | 0 => []
  | n + 1 => x :: keyStream (lcgStep x) n

/-- A key shuffle: tag each record with a pseudo-random key from the stream
starting at `x` and stably sort by key. -/
def keyShuffle (x : ℕ) (l : List TransactionRecord) : List TransactionRecord :=
  (List.insertionSort (fun p q : ℕ × TransactionRecord => p.1 ≤ q.1)
    ((keyStream x l.length).zip l)).map Prod.snd

/-- `df.sample(frac=1.0, random_state=seed).reset_index(drop=True)`
(generate_synthetic_data.py line 146): a permutation of the rows determined by the
seed alone.  NumPy's seeded Fisher-Yates permutation is abstracted as a stable sort
by a seed-derived pseudo-random key stream, which is likewise a seed-determined
permutation.  With `random_state=None` pandas draws fresh entropy; that case is
modelled by keying off the ambient stream state. -/
def shuffleWithSeed (seed : Option ℕ) (g : RState) (l : List TransactionRecord) :
    List TransactionRecord :=
  match seed with
  | some sd => keyShuffle (lcgStep (sd + 2 ^ 65)) l
  | none => keyShuffle g.rnd l

/-- `generate_dataset` (generate_synthetic_data.py lines 42-148).  Modelling notes:
* the ratio arguments are exact rationals, mirroring the source's float ratios;
* on a seed, the source seeds the global `random` and Faker streams (lines 74-76)
  and each generator constructor immediately re-seeds the same streams with the
  same seed (patterns.py lines 26-31); these idempotent re-seedings collapse to
  the single `mkRState` below;
* the progress printing has no effect on the data and is dropped;
* the source's default window (now going back 90 days) is not modelled: the
  claims under verification always supply `start_date`/`end_date`;
* the composer calls every generator without a `difficulty` argument (lines 110,
  119, 128, 137), so the fraud generators run at their default `'easy'` tier and
  the Legitimate generator at its default `'n/a'` (made explicit here);
* a negative `payment_fraud_count` makes `range(payment_fraud_count)` empty,
  which `Int.toNat` reproduces. -/
def generate_dataset (size : ℕ)
    (legitimate_ratio fake_account_ratio account_takeover_ratio payment_fraud_ratio : ℚ)
    (seed : Option ℕ) (start_date end_date : ℤ) (g : RState) :
    Except String (List TransactionRecord) :=
  -- Validate ratios sum to approximately 1.0
  let total_ratio := legitimate_ratio + fake_account_ratio + account_takeover_ratio +
    payment_fraud_ratio
  if ¬ (0.99 ≤ total_ratio ∧ total_ratio ≤ 1.01) then
    Except.error "Ratios must sum to 1.0"
  else
    -- Set random seeds for reproducibility
    let s := match seed with
      | some sd => mkRState sd
      | none => g
    -- Calculate counts for each abuse type
    let legitimate_count := pyInt (size * legitimate_ratio)
    let fake_account_count := pyInt (size * fake_account_ratio)
    let account_takeover_count := pyInt (size * account_takeover_ratio)
    let payment_fraud_count : ℤ :=
      size - legitimate_count - fake_account_count - account_takeover_count
    -- Generate the four blocks of records
    let a := genLoop (fun ts => LegitimatePatternGenerator.generate ts Tier.na)
      start_date end_date legitimate_count.toNat s
    let b := genLoop (fun ts => FakeAccountPatternGenerator.generate ts Tier.easy)
      start_date end_date fake_account_count.toNat a.2
    let c := genLoop (fun ts => AccountTakeoverPatternGenerator.generate ts Tier.easy)
      start_date end_date account_takeover_count.toNat b.2
    let d := genLoop (fun ts => PaymentFraudPatternGenerator.generate ts Tier.easy)
      start_date end_date payment_fraud_count.toNat c.2
    let records := a.1 ++ b.1 ++ c.1 ++ d.1
    -- Shuffle records to mix abuse types
    Except.ok (shuffleWithSeed seed d.2 records)

/-- The number of records of a given abuse type in a dataset. -/
def realizedCount (t : AbuseType) (l : List TransactionRecord) : ℕ :=
  l.countP (fun r => decide (r.abuse_type = t))

/-- The label-consistency invariant of a record: `is_abuse` holds exactly when
`abuse_type` is neither `legitimate` nor `suspicious_but_legitimate`. -/
def labelOk (r : TransactionRecord) : Prop :=
  r.is_abuse = decide (r.abuse_type ≠ AbuseType.legitimate ∧
    r.abuse_type ≠ AbuseType.suspicious_but_legitimate)

/-- The derived-field invariant of a record: `billing_shipping_match` equals the
equality test of `billing_country` and `shipping_country`. -/
def bsmOk (r : TransactionRecord) : Prop :=
  r.billing_shipping_match = decide (r.billing_country = r.shipping_country)

/-- `validate_dataset` (generate_synthetic_data.py lines 151-231), modelled as a
function from a composed dataset to either the report it prints (a list of lines;
the purely numeric tables are abstracted to their pass/fail content) or the
exception it raises.  The operations that can raise are the series lookup
`abuse_flag_check['legitimate']` (a `KeyError` when the groupby result has no
`legitimate` key, line 178) and the three `.iloc[0]` sample selections (an
`IndexError` when the dataset has no record of the sampled archetype, lines 203,
210 and 217).  The function reads the dataset and returns only report lines: it
has no way to modify its input. -/
def validate_dataset (df : List TransactionRecord) : Except String (List String) :=
  -- Check for null values: the typed records of the model contain no nulls
  let nullLine := "No null values found"
  -- abuse_flag_check = df.groupby('abuse_type')['is_abuse'].all();
  -- abuse_flag_check['legitimate'] raises KeyError when no legitimate row exists
  if ¬ df.any (fun r => decide (r.abuse_type = AbuseType.legitimate)) then
    Except.error "KeyError: legitimate"
  else
    -- all() of the legitimate group, and of every other group combined
    let legitAll := (df.filter (fun r => decide (r.abuse_type = AbuseType.legitimate))).all
      (fun r => r.is_abuse)
    let othersAll := (df.filter (fun r => decide (r.abuse_type ≠ AbuseType.legitimate))).all
      (fun r => r.is_abuse)
    let flagLine := if legitAll = false ∧ othersAll = true then
      "is_abuse flag consistent with abuse_type"
    else
      "WARNING: is_abuse flag inconsistent with abuse_type"
    -- Numeric range validation
    let ageLine := if df.all (fun r => decide ((0 : ℤ) ≤ (r.account_age_days : ℤ))) then
      "account_age_days >= 0"
    else
      "account_age_days has negative values"
    let amountLine := if df.all (fun r => decide (0 < r.order_amount)) then
      "order_amount > 0"
    else
      "order_amount has non-positive values"
    let confLine := if df.all
        (fun r => decide (0 ≤ r.abuse_confidence ∧ r.abuse_confidence ≤ 1)) then
      "abuse_confidence in [0, 1]"
    else
      "abuse_confidence out of range"
    -- Pattern validation - sample records: `.iloc[0]` on each filtered frame
    -- raises IndexError exactly when the filtered frame is empty
    if (df.filter (fun r => decide (r.abuse_type = AbuseType.fake_account))).isEmpty then
      Except.error "IndexError: no fake_account record"
    else if (df.filter (fun r => decide (r.abuse_type = AbuseType.account_takeover))).isEmpty then
      Except.error "IndexError: no account_takeover record"
    else if (df.filter (fun r => decide (r.abuse_type = AbuseType.payment_fraud))).isEmpty then
      Except.error "IndexError: no payment_fraud record"
    else
      Except.ok [nullLine, flagLine, ageLine, amountLine, confLine,
        "sample records printed", "statistical summary printed"]

/- Concrete datasets used by the closed-form witnesses and counterexamples
below: a four-record frame with one record of each archetype, a composed
dataset of a single legitimate record, and a composed dataset of a single
fake-account record together with that record. -/

def c9ok : List TransactionRecord :=
  [(LegitimatePatternGenerator.generate 0 Tier.na (mkRState 0)).1,
   (FakeAccountPatternGenerator.generate 0 Tier.easy (mkRState 0)).1,
   (AccountTakeoverPatternGenerator.generate 0 Tier.easy (mkRState 0)).1,
   (PaymentFraudPatternGenerator.generate 0 Tier.easy (mkRState 0)).1]

def c9data : List TransactionRecord :=
  ((generate_dataset 1 1 0 0 0 (some 0) 0 86400 (mkRState 0)).toOption).getD []

def c10data : List TransactionRecord :=
  ((generate_dataset 1 0 1 0 0 (some 0) 0 86400 (mkRState 0)).toOption).getD []

def c10rec : TransactionRecord :=
  c10data.getD 0 (LegitimatePatternGenerator.generate 0 Tier.na (mkRState 0)).1

/- For the symbolic theorems below, the draw primitives are kept folded: every
record-level property proved over an arbitrary stream state compares the same
stuck draw terms on both sides.  They are re-marked `semireducible` before the
concrete witness evaluations at the end of the file. -/
attribute [irreducible] RState.next RState.nextF unitOf randomUnitV randintV choiceV
  choicesWV uniformV gaussV pickW round2 generate_ip_addressV generate_device_idV
  generate_transaction_idV generate_user_idV

/- Range lemmas for the draw primitives. -/

theorem unitOf_mem (n : ℕ) : 0 ≤ unitOf n ∧ unitOf n < 1 := by
  unfold unitOf
  constructor
  · positivity
  · rw [div_lt_one (by positivity)]
    exact_mod_cast Nat.mod_lt n (by norm_num)

theorem randomUnitV_mem (s : RState) : 0 ≤ randomUnitV s ∧ randomUnitV s < 1 := by
  unfold randomUnitV
  exact unitOf_mem s.rnd

theorem randintV_le (lo hi : ℕ) (s : RState) (h : lo ≤ hi) : randintV lo hi s ≤ hi := by
  unfold randintV
  have h2 : s.rnd % (hi - lo + 1) < hi - lo + 1 := Nat.mod_lt s.rnd (by omega)
  omega

theorem qfloor_eq_floor (q : ℚ) : qfloor q = ⌊q⌋ := by
  unfold qfloor
  exact Rat.floor_def.symm

/-- Rounding a `uniform(a, b)` draw to hundredths stays inside `[a, b]` when both
endpoints are themselves multiples of 1/100. -/
theorem round2_uniformV_mem (a b : ℚ) (s : RState) (hab : a ≤ b)
    (ha : ∃ k : ℤ, (k : ℚ) = a * 100) (hb : ∃ k : ℤ, (k : ℚ) = b * 100) :
    a ≤ round2 (uniformV a b s) ∧ round2 (uniformV a b s) ≤ b := by
  obtain ⟨ka, hka⟩ := ha
  obtain ⟨kb, hkb⟩ := hb
  obtain ⟨hu0, hu1⟩ := randomUnitV_mem s
  have hx : a ≤ uniformV a b s ∧ uniformV a b s ≤ b := by
    unfold uniformV
    constructor <;> nlinarith
  unfold round2
  rw [qfloor_eq_floor]
  constructor
  · have h1 : ka ≤ ⌊uniformV a b s * 100 + 1 / 2⌋ := by
      rw [Int.le_floor]
      nlinarith [hx.1]
    have h2 : (ka : ℚ) ≤ (⌊uniformV a b s * 100 + 1 / 2⌋ : ℚ) := by exact_mod_cast h1
    nlinarith
  · have h1 : ⌊uniformV a b s * 100 + 1 / 2⌋ < kb + 1 := by
      rw [Int.floor_lt]
      push_cast
      nlinarith [hx.2]
    have h2 : (⌊uniformV a b s * 100 + 1 / 2⌋ : ℚ) ≤ (kb : ℚ) := by
      have h3 := Int.lt_add_one_iff.mp h1
      exact_mod_cast h3
    nlinarith

/- Per-generator record lemmas, each for every timestamp, difficulty and stream
state. -/

theorem legit_labelOk (ts : ℤ) (d : Tier) (g : RState) :
    labelOk (LegitimatePatternGenerator.generate ts d g).1 := rfl

theorem fake_labelOk (ts : ℤ) (d : Tier) (g : RState) :
    labelOk (FakeAccountPatternGenerator.generate ts d g).1 := by
  cases d <;> rfl

theorem ato_labelOk (ts : ℤ) (d : Tier) (g : RState) :
    labelOk (AccountTakeoverPatternGenerator.generate ts d g).1 := by
  cases d <;> rfl

theorem pf_labelOk (ts : ℤ) (d : Tier) (g : RState) :
    labelOk (PaymentFraudPatternGenerator.generate ts d g).1 := by
  cases d <;> rfl

theorem sbl_labelOk (ts : ℤ) (d : Tier) (g : RState) :
    labelOk (SuspiciousButLegitimatePatternGenerator.generate ts d g).1 := rfl

theorem legit_bsmOk (ts : ℤ) (d : Tier) (g : RState) :
    bsmOk (LegitimatePatternGenerator.generate ts d g).1 := rfl

theorem ato_bsmOk (ts : ℤ) (d : Tier) (g : RState) :
    bsmOk (AccountTakeoverPatternGenerator.generate ts d g).1 := by
  cases d <;> rfl

theorem pf_bsmOk (ts : ℤ) (d : Tier) (g : RState) :
    bsmOk (PaymentFraudPatternGenerator.generate ts d g).1 := by
  cases d <;> rfl

theorem sbl_bsmOk (ts : ℤ) (d : Tier) (g : RState) :
    bsmOk (SuspiciousButLegitimatePatternGenerator.generate ts d g).1 := rfl

theorem legit_abuse_type (ts : ℤ) (d : Tier) (g : RState) :
    (LegitimatePatternGenerator.generate ts d g).1.abuse_type = AbuseType.legitimate := rfl

theorem fake_abuse_type (ts : ℤ) (d : Tier) (g : RState) :
    (FakeAccountPatternGenerator.generate ts d g).1.abuse_type = AbuseType.fake_account := by
  cases d <;> rfl

theorem ato_abuse_type (ts : ℤ) (d : Tier) (g : RState) :
    (AccountTakeoverPatternGenerator.generate ts d g).1.abuse_type =
      AbuseType.account_takeover := by
  cases d <;> rfl

theorem pf_abuse_type (ts : ℤ) (d : Tier) (g : RState) :
    (PaymentFraudPatternGenerator.generate ts d g).1.abuse_type =
      AbuseType.payment_fraud := by
  cases d <;> rfl

theorem legit_is_abuse (ts : ℤ) (d : Tier) (g : RState) :
    (LegitimatePatternGenerator.generate ts d g).1.is_abuse = false := rfl

theorem fake_tier (ts : ℤ) (d : Tier) (g : RState) :
    (FakeAccountPatternGenerator.generate ts d g).1.difficulty_tier = d := by
  cases d <;> rfl

theorem ato_tier (ts : ℤ) (d : Tier) (g : RState) :
    (AccountTakeoverPatternGenerator.generate ts d g).1.difficulty_tier = d := by
  cases d <;> rfl

theorem pf_tier (ts : ℤ) (d : Tier) (g : RState) :
    (PaymentFraudPatternGenerator.generate ts d g).1.difficulty_tier = d := by
  cases d <;> rfl

/- Structural lemmas about the composition loop and the shuffle. -/

theorem genLoop_length (gen : ℤ → RState → TransactionRecord × RState) (sd ed : ℤ) :
    ∀ (n : ℕ) (s : RState), ((genLoop gen sd ed n s).1).length = n := by
  intro n
  induction n with
  | zero => intro s; rfl
  | succ n ih =>
    intro s
    simp only [genLoop, List.length_cons]
    rw [ih]

theorem genLoop_mem {P : TransactionRecord → Prop}
    (gen : ℤ → RState → TransactionRecord × RState) (sd ed : ℤ)
    (hgen : ∀ ts s, P (gen ts s).1) :
    ∀ (n : ℕ) (s : RState), ∀ r ∈ (genLoop gen sd ed n s).1, P r := by
  intro n
  induction n with
  | zero => intro s r hr; simp [genLoop] at hr
  | succ n ih =>
    intro s r hr
    simp only [genLoop, List.mem_cons] at hr
    rcases hr with h | h
    · exact h ▸ hgen _ _
    · exact ih _ r h

theorem keyStream_length : ∀ (n x : ℕ), (keyStream x n).length = n := by
  intro n
  induction n with
  | zero => intro x; rfl
  | succ n ih => intro x; simp only [keyStream, List.length_cons, ih]

theorem keyShuffle_perm (x : ℕ) (l : List TransactionRecord) :
    List.Perm (keyShuffle x l) l := by
  unfold keyShuffle
  have h1 := List.perm_insertionSort (fun p q : ℕ × TransactionRecord => p.1 ≤ q.1)
    ((keyStream x l.length).zip l)
  have h2 := List.Perm.map Prod.snd h1
  rwa [List.map_snd_zip _ _ (by rw [keyStream_length])] at h2

theorem shuffleWithSeed_perm (seed : Option ℕ) (g : RState) (l : List TransactionRecord) :
    List.Perm (shuffleWithSeed seed g l) l := by
  cases seed <;> exact keyShuffle_perm _ _

theorem countP_const_block {t t0 : AbuseType} {l : List TransactionRecord}
    (hall : ∀ r ∈ l, r.abuse_type = t0) :
    l.countP (fun r => decide (r.abuse_type = t)) = if t = t0 then l.length else 0 := by
  split
  · next h =>
    subst h
    exact List.countP_eq_length.mpr (fun r hr => by simp [hall r hr])
  · next h =>
    exact List.countP_eq_zero.mpr (fun r hr => by
      simp only [hall r hr, decide_eq_true_eq]
      exact fun hh => h hh.symm)



theorem composed_spec (seed : Option ℕ) (gf : RState)
    (LA LB LC LD : List TransactionRecord)
    (hA1 : ∀ r ∈ LA, r.abuse_type = AbuseType.legitimate)
    (hA2 : ∀ r ∈ LA, r.is_abuse = false)
    (hB1 : ∀ r ∈ LB, r.abuse_type = AbuseType.fake_account)
    (hB2 : ∀ r ∈ LB, r.difficulty_tier = Tier.easy)
    (hC1 : ∀ r ∈ LC, r.abuse_type = AbuseType.account_takeover)
    (hC2 : ∀ r ∈ LC, r.difficulty_tier = Tier.easy)
    (hD1 : ∀ r ∈ LD, r.abuse_type = AbuseType.payment_fraud)
    (hD2 : ∀ r ∈ LD, r.difficulty_tier = Tier.easy) :
    realizedCount AbuseType.legitimate
      (shuffleWithSeed seed gf (LA ++ LB ++ LC ++ LD)) = LA.length ∧
    realizedCount AbuseType.fake_account
      (shuffleWithSeed seed gf (LA ++ LB ++ LC ++ LD)) = LB.length ∧
    realizedCount AbuseType.account_takeover
      (shuffleWithSeed seed gf (LA ++ LB ++ LC ++ LD)) = LC.length ∧
    realizedCount AbuseType.payment_fraud
      (shuffleWithSeed seed gf (LA ++ LB ++ LC ++ LD)) = LD.length ∧
    (shuffleWithSeed seed gf (LA ++ LB ++ LC ++ LD)).length =
      LA.length + LB.length + LC.length + LD.length ∧
    ∀ r ∈ shuffleWithSeed seed gf (LA ++ LB ++ LC ++ LD),
      r.is_abuse = true → r.difficulty_tier = Tier.easy := by
  have hperm := shuffleWithSeed_perm seed gf (LA ++ LB ++ LC ++ LD)
  have hcount : ∀ t : AbuseType,
      realizedCount t (shuffleWithSeed seed gf (LA ++ LB ++ LC ++ LD)) =
      (if t = AbuseType.legitimate then LA.length else 0) +
      ((if t = AbuseType.fake_account then LB.length else 0) +
        ((if t = AbuseType.account_takeover then LC.length else 0) +
          (if t = AbuseType.payment_fraud then LD.length else 0))) := by
    intro t
    unfold realizedCount
    rw [hperm.countP_eq, List.countP_append, List.countP_append, List.countP_append,
      countP_const_block hA1, countP_const_block hB1, countP_const_block hC1,
      countP_const_block hD1]
    ac_rfl
  refine ⟨?_, ?_, ?_, ?_, ?_, ?_⟩
  · rw [hcount]; simp
  · rw [hcount]; simp
  · rw [hcount]; simp
  · rw [hcount]; simp
  · rw [hperm.length_eq]; simp only [List.length_append]
  · intro r hr hab
    have hr2 := hperm.mem_iff.mp hr
    simp only [List.mem_append] at hr2
    rcases hr2 with ((h | h) | h) | h
    · rw [hA2 r h] at hab; cases hab
    · exact hB2 r h
    · exact hC2 r h
    · exact hD2 r h




theorem generate_dataset_spec (size : ℕ) (lr fr ar pr : ℚ) (seed : Option ℕ)
    (sd ed : ℤ) (g : RState)
    (h1 : 0.99 ≤ lr + fr + ar + pr) (h2 : lr + fr + ar + pr ≤ 1.01) :
    ∃ l, generate_dataset size lr fr ar pr seed sd ed g = Except.ok l ∧
      realizedCount AbuseType.legitimate l = (pyInt (size * lr)).toNat ∧
      realizedCount AbuseType.fake_account l = (pyInt (size * fr)).toNat ∧
      realizedCount AbuseType.account_takeover l = (pyInt (size * ar)).toNat ∧
      realizedCount AbuseType.payment_fraud l =
        ((size : ℤ) - pyInt (size * lr) - pyInt (size * fr) - pyInt (size * ar)).toNat ∧
      l.length = (pyInt (size * lr)).toNat + (pyInt (size * fr)).toNat +
        (pyInt (size * ar)).toNat +
        ((size : ℤ) - pyInt (size * lr) - pyInt (size * fr) - pyInt (size * ar)).toNat ∧
      ∀ r ∈ l, r.is_abuse = true → r.difficulty_tier = Tier.easy := by
  simp only [generate_dataset]
  rw [if_neg (not_not_intro ⟨h1, h2⟩)]
  refine ⟨_, rfl, ?_⟩
  set s0 := (match seed with | some sdd => mkRState sdd | none => g) with hs0
  set A := genLoop (fun ts => LegitimatePatternGenerator.generate ts Tier.na) sd ed
    (pyInt (size * lr)).toNat s0 with hA
  set B := genLoop (fun ts => FakeAccountPatternGenerator.generate ts Tier.easy) sd ed
    (pyInt (size * fr)).toNat A.2 with hB
  set C := genLoop (fun ts => AccountTakeoverPatternGenerator.generate ts Tier.easy) sd ed
    (pyInt (size * ar)).toNat B.2 with hC
  set D := genLoop (fun ts => PaymentFraudPatternGenerator.generate ts Tier.easy) sd ed
    ((size : ℤ) - pyInt (size * lr) - pyInt (size * fr) - pyInt (size * ar)).toNat C.2 with hD
  obtain ⟨c1, c2, c3, c4, c5, c6⟩ := composed_spec seed D.2 A.1 B.1 C.1 D.1
    (by rw [hA]; exact genLoop_mem _ sd ed (fun ts s => legit_abuse_type ts Tier.na s) _ _)
    (by rw [hA]; exact genLoop_mem _ sd ed (fun ts s => legit_is_abuse ts Tier.na s) _ _)
    (by rw [hB]; exact genLoop_mem _ sd ed (fun ts s => fake_abuse_type ts Tier.easy s) _ _)
    (by rw [hB]; exact genLoop_mem _ sd ed (fun ts s => fake_tier ts Tier.easy s) _ _)
    (by rw [hC]; exact genLoop_mem _ sd ed (fun ts s => ato_abuse_type ts Tier.easy s) _ _)
    (by rw [hC]; exact genLoop_mem _ sd ed (fun ts s => ato_tier ts Tier.easy s) _ _)
    (by rw [hD]; exact genLoop_mem _ sd ed (fun ts s => pf_abuse_type ts Tier.easy s) _ _)
    (by rw [hD]; exact genLoop_mem _ sd ed (fun ts s => pf_tier ts Tier.easy s) _ _)
  refine ⟨?_, ?_, ?_, ?_, ?_, c6⟩
  · rw [c1, hA, genLoop_length]
  · rw [c2, hB, genLoop_length]
  · rw [c3, hC, genLoop_length]
  · rw [c4, hD, genLoop_length]
  · rw [c5, hA, hB, hC, hD]
    simp only [genLoop_length]

/- Arithmetic facts about Python truncation and rounding. -/

theorem pyInt_eq_floor (q : ℚ) (h : 0 ≤ q) : pyInt q = ⌊q⌋ := by
  unfold pyInt
  rw [Rat.floor_def]
  exact Int.tdiv_eq_ediv (by exact_mod_cast Rat.num_nonneg.mpr h) (by positivity)

/-- The floor of a rational and its nearest integer differ by at most one. -/
theorem floor_round_dist (x : ℚ) : (⌊x⌋ - round x).natAbs ≤ 1 := by
  rw [round_eq]
  have h1 : ⌊x⌋ ≤ ⌊x + 1 / 2⌋ := Int.floor_le_floor (by linarith)
  have h2 : ⌊x + 1 / 2⌋ ≤ ⌊x⌋ + 1 := by
    have h3 : ⌊x + 1 / 2⌋ ≤ ⌊x + (1 : ℤ)⌋ := Int.floor_le_floor (by push_cast; linarith)
    rwa [Int.floor_add_int] at h3
  omega

theorem isEmpty_false_of_mem {α : Type} {l : List α} {x : α} (h : x ∈ l) :
    l.isEmpty = false := by
  cases l
  · cases h
  · rfl

/- The claims. -/

/-- C1: for every record returned by any of the five archetype generators at any
timestamp, difficulty and stream state, `is_abuse` is true exactly when
`abuse_type` is neither `legitimate` nor `suspicious_but_legitimate`. -/
theorem C1_label_consistency (ts : ℤ) (d : Tier) (g : RState) :
    labelOk (LegitimatePatternGenerator.generate ts d g).1 ∧
    labelOk (FakeAccountPatternGenerator.generate ts d g).1 ∧
    labelOk (AccountTakeoverPatternGenerator.generate ts d g).1 ∧
    labelOk (PaymentFraudPatternGenerator.generate ts d g).1 ∧
    labelOk (SuspiciousButLegitimatePatternGenerator.generate ts d g).1 :=
  ⟨legit_labelOk ts d g, fake_labelOk ts d g, ato_labelOk ts d g, pf_labelOk ts d g,
   sbl_labelOk ts d g⟩

/-- C2 (amended): `billing_shipping_match = (billing_country = shipping_country)`
holds for every record of the Legitimate, AccountTakeover, PaymentFraud and
SuspiciousButLegitimate generators; the FakeAccount generator instead draws the
flag as an independent 40% Bernoulli (patterns.py line 267), so the claim fails
there (see the counterexample). -/
theorem C2_derived_field_amended (ts : ℤ) (d : Tier) (g : RState) :
    bsmOk (LegitimatePatternGenerator.generate ts d g).1 ∧
    bsmOk (AccountTakeoverPatternGenerator.generate ts d g).1 ∧
    bsmOk (PaymentFraudPatternGenerator.generate ts d g).1 ∧
    bsmOk (SuspiciousButLegitimatePatternGenerator.generate ts d g).1 :=
  ⟨legit_bsmOk ts d g, ato_bsmOk ts d g, pf_bsmOk ts d g, sbl_bsmOk ts d g⟩

/-- C3: with a given (integer) seed, `generate_dataset` is a function of
`(size, ratios, seed, window)` alone: two calls with identical arguments return
identical datasets record-for-record, whatever the ambient stream states of the
two calls are.  This covers both the per-record field values and the row order
after the final shuffle, since the whole returned list is equal. -/
theorem C3_determinism (size : ℕ) (lr fr ar pr : ℚ) (s : ℕ) (sd ed : ℤ)
    (g1 g2 : RState) :
    generate_dataset size lr fr ar pr (some s) sd ed g1 =
    generate_dataset size lr fr ar pr (some s) sd ed g2 := rfl

/-- C4 (amended): for ratios in the accepted band, the first three archetypes are
generated `⌊size * ratio⌋` times and payment_fraud absorbs the remainder; the
total equals `size` provided the three floors fit into `size` (with the
accepted band reaching up to 1.01, the floors can overshoot `size`, in which
case `range(payment_fraud_count)` is empty and the total exceeds `size`; see
the counterexample). -/
theorem C4_count_allocation_amended (size : ℕ) (lr fr ar pr : ℚ) (seed : Option ℕ)
    (sd ed : ℤ) (g : RState)
    (h1 : 0.99 ≤ lr + fr + ar + pr) (h2 : lr + fr + ar + pr ≤ 1.01)
    (hl : 0 ≤ lr) (hf : 0 ≤ fr) (ha : 0 ≤ ar)
    (hfit : ⌊(size : ℚ) * lr⌋ + ⌊(size : ℚ) * fr⌋ + ⌊(size : ℚ) * ar⌋ ≤ (size : ℤ)) :
    ∃ l, generate_dataset size lr fr ar pr seed sd ed g = Except.ok l ∧
      realizedCount AbuseType.legitimate l = (⌊(size : ℚ) * lr⌋).toNat ∧
      realizedCount AbuseType.fake_account l = (⌊(size : ℚ) * fr⌋).toNat ∧
      realizedCount AbuseType.account_takeover l = (⌊(size : ℚ) * ar⌋).toNat ∧
      (realizedCount AbuseType.payment_fraud l : ℤ) =
        (size : ℤ) - ⌊(size : ℚ) * lr⌋ - ⌊(size : ℚ) * fr⌋ - ⌊(size : ℚ) * ar⌋ ∧
      l.length = size := by
  obtain ⟨l, hgen, e1, e2, e3, e4, e5, _⟩ :=
    generate_dataset_spec size lr fr ar pr seed sd ed g h1 h2
  have k1 : pyInt ((size : ℚ) * lr) = ⌊(size : ℚ) * lr⌋ :=
    pyInt_eq_floor _ (mul_nonneg (by positivity) hl)
  have k2 : pyInt ((size : ℚ) * fr) = ⌊(size : ℚ) * fr⌋ :=
    pyInt_eq_floor _ (mul_nonneg (by positivity) hf)
  have k3 : pyInt ((size : ℚ) * ar) = ⌊(size : ℚ) * ar⌋ :=
    pyInt_eq_floor _ (mul_nonneg (by positivity) ha)
  have n1 : 0 ≤ ⌊(size : ℚ) * lr⌋ := Int.floor_nonneg.mpr (mul_nonneg (by positivity) hl)
  have n2 : 0 ≤ ⌊(size : ℚ) * fr⌋ := Int.floor_nonneg.mpr (mul_nonneg (by positivity) hf)
  have n3 : 0 ≤ ⌊(size : ℚ) * ar⌋ := Int.floor_nonneg.mpr (mul_nonneg (by positivity) ha)
  rw [k1] at e1
  rw [k2] at e2
  rw [k3] at e3
  rw [k1, k2, k3] at e4
  rw [k1, k2, k3] at e5
  refine ⟨l, hgen, e1, e2, e3, ?_, ?_⟩
  · rw [e4]
    omega
  · rw [e5]
    omega

/-- C5: ratio sums outside [0.99, 1.01] make `generate_dataset` fail with the
configuration `ValueError` before any record is generated: the returned value is
the error alone, so zero records are produced. -/
theorem C5_config_error (size : ℕ) (lr fr ar pr : ℚ) (seed : Option ℕ)
    (sd ed : ℤ) (g : RState)
    (h : lr + fr + ar + pr < 0.99 ∨ 1.01 < lr + fr + ar + pr) :
    generate_dataset size lr fr ar pr seed sd ed g =
      Except.error "Ratios must sum to 1.0" := by
  have hc : ¬(0.99 ≤ lr + fr + ar + pr ∧ lr + fr + ar + pr ≤ 1.01) := by
    rintro ⟨hh1, hh2⟩
    rcases h with h | h <;> linarith
  simp only [generate_dataset]
  rw [if_pos hc]

/-- C6 (amended): for nonnegative ratios in the accepted band, each of the first
three archetypes' realized counts is within one of `round(size * ratio)`; the
final archetype (payment_fraud) absorbs the entire rounding and tolerance slack
and can drift further (see the counterexample). -/
theorem C6_ratio_fidelity_amended (size : ℕ) (lr fr ar pr : ℚ) (seed : Option ℕ)
    (sd ed : ℤ) (g : RState)
    (h1 : 0.99 ≤ lr + fr + ar + pr) (h2 : lr + fr + ar + pr ≤ 1.01)
    (hl : 0 ≤ lr) (hf : 0 ≤ fr) (ha : 0 ≤ ar) :
    ∃ l, generate_dataset size lr fr ar pr seed sd ed g = Except.ok l ∧
      ((realizedCount AbuseType.legitimate l : ℤ) - round ((size : ℚ) * lr)).natAbs ≤ 1 ∧
      ((realizedCount AbuseType.fake_account l : ℤ) - round ((size : ℚ) * fr)).natAbs ≤ 1 ∧
      ((realizedCount AbuseType.account_takeover l : ℤ) - round ((size : ℚ) * ar)).natAbs ≤ 1 := by
  obtain ⟨l, hgen, e1, e2, e3, _, _, _⟩ :=
    generate_dataset_spec size lr fr ar pr seed sd ed g h1 h2
  have k1 : pyInt ((size : ℚ) * lr) = ⌊(size : ℚ) * lr⌋ :=
    pyInt_eq_floor _ (mul_nonneg (by positivity) hl)
  have k2 : pyInt ((size : ℚ) * fr) = ⌊(size : ℚ) * fr⌋ :=
    pyInt_eq_floor _ (mul_nonneg (by positivity) hf)
  have k3 : pyInt ((size : ℚ) * ar) = ⌊(size : ℚ) * ar⌋ :=
    pyInt_eq_floor _ (mul_nonneg (by positivity) ha)
  have n1 : 0 ≤ ⌊(size : ℚ) * lr⌋ := Int.floor_nonneg.mpr (mul_nonneg (by positivity) hl)
  have n2 : 0 ≤ ⌊(size : ℚ) * fr⌋ := Int.floor_nonneg.mpr (mul_nonneg (by positivity) hf)
  have n3 : 0 ≤ ⌊(size : ℚ) * ar⌋ := Int.floor_nonneg.mpr (mul_nonneg (by positivity) ha)
  refine ⟨l, hgen, ?_, ?_, ?_⟩
  · rw [e1, k1]
    have hd := floor_round_dist ((size : ℚ) * lr)
    omega
  · rw [e2, k2]
    have hd := floor_round_dist ((size : ℚ) * fr)
    omega
  · rw [e3, k3]
    have hd := floor_round_dist ((size : ℚ) * ar)
    omega

/-- C7: the FakeAccount abuse-confidence lies in [0.85, 0.98] at the easy tier,
in [0.65, 0.80] at the medium tier and in [0.45, 0.65] at the hard tier, for
every timestamp and stream state; consequently both interval endpoints strictly
decrease from easy to medium to hard. -/
theorem C7_confidence_tiers (ts : ℤ) (g : RState) :
    (0.85 ≤ (FakeAccountPatternGenerator.generate ts Tier.easy g).1.abuse_confidence ∧
      (FakeAccountPatternGenerator.generate ts Tier.easy g).1.abuse_confidence ≤ 0.98) ∧
    (0.65 ≤ (FakeAccountPatternGenerator.generate ts Tier.medium g).1.abuse_confidence ∧
      (FakeAccountPatternGenerator.generate ts Tier.medium g).1.abuse_confidence ≤ 0.80) ∧
    (0.45 ≤ (FakeAccountPatternGenerator.generate ts Tier.hard g).1.abuse_confidence ∧
      (FakeAccountPatternGenerator.generate ts Tier.hard g).1.abuse_confidence ≤ 0.65) ∧
    ((0.65 : ℚ) < 0.85 ∧ (0.80 : ℚ) < 0.98 ∧ (0.45 : ℚ) < 0.65 ∧ (0.65 : ℚ) < 0.80) :=
  ⟨round2_uniformV_mem 0.85 0.98 _ (by norm_num) ⟨85, by norm_num⟩ ⟨98, by norm_num⟩,
   round2_uniformV_mem 0.65 0.80 _ (by norm_num) ⟨65, by norm_num⟩ ⟨80, by norm_num⟩,
   round2_uniformV_mem 0.45 0.65 _ (by norm_num) ⟨45, by norm_num⟩ ⟨65, by norm_num⟩,
   by norm_num⟩

/-- C8: every FakeAccount record generated at the easy tier has
`account_age_days` in [0, 3] (the field is a natural number, so the lower bound
is inherent) and `new_device = True`, for every timestamp and stream state. -/
theorem C8_easy_fake_account (ts : ℤ) (g : RState) :
    (FakeAccountPatternGenerator.generate ts Tier.easy g).1.account_age_days ≤ 3 ∧
    (FakeAccountPatternGenerator.generate ts Tier.easy g).1.new_device = true :=
  ⟨randintV_le 0 3 g (by norm_num), rfl⟩

/-- C9 (amended): `validate_dataset` is a read-only report: on any dataset
containing at least one record of each of the four composed archetypes it
returns its report without raising; but on a composed dataset missing an
archetype the series lookup `abuse_flag_check['legitimate']` or a sample
selection `.iloc[0]` raises, so the original claim fails (see the
counterexample). -/
theorem C9_validator_amended (df : List TransactionRecord)
    (hleg : ∃ r ∈ df, r.abuse_type = AbuseType.legitimate)
    (hfak : ∃ r ∈ df, r.abuse_type = AbuseType.fake_account)
    (hato : ∃ r ∈ df, r.abuse_type = AbuseType.account_takeover)
    (hpf : ∃ r ∈ df, r.abuse_type = AbuseType.payment_fraud) :
    ∃ report, validate_dataset df = Except.ok report := by
  obtain ⟨r1, hr1, ht1⟩ := hleg
  obtain ⟨r2, hr2, ht2⟩ := hfak
  obtain ⟨r3, hr3, ht3⟩ := hato
  obtain ⟨r4, hr4, ht4⟩ := hpf
  have hany : df.any (fun r => decide (r.abuse_type = AbuseType.legitimate)) = true :=
    List.any_eq_true.mpr ⟨r1, hr1, by simp [ht1]⟩
  have hf2 : (df.filter (fun r => decide (r.abuse_type = AbuseType.fake_account))).isEmpty
      = false :=
    isEmpty_false_of_mem (List.mem_filter.mpr ⟨hr2, by simp [ht2]⟩)
  have hf3 : (df.filter (fun r => decide (r.abuse_type = AbuseType.account_takeover))).isEmpty
      = false :=
    isEmpty_false_of_mem (List.mem_filter.mpr ⟨hr3, by simp [ht3]⟩)
  have hf4 : (df.filter (fun r => decide (r.abuse_type = AbuseType.payment_fraud))).isEmpty
      = false :=
    isEmpty_false_of_mem (List.mem_filter.mpr ⟨hr4, by simp [ht4]⟩)
  simp only [validate_dataset]
  rw [if_neg (not_not_intro hany)]
  rw [if_neg (by rw [hf2]; simp)]
  rw [if_neg (by rw [hf3]; simp)]
  rw [if_neg (by rw [hf4]; simp)]
  exact ⟨_, rfl⟩

/-- C10: every abusive record of a composed dataset carries the easy difficulty
tier, because `generate_dataset` calls each fraud generator without a difficulty
argument and the source default is `'easy'`; legitimate records are the only
non-abusive composed records and carry `'n/a'`. -/
theorem C10_composed_fraud_easy (size : ℕ) (lr fr ar pr : ℚ) (seed : Option ℕ)
    (sd ed : ℤ) (g : RState) (l : List TransactionRecord)
    (h : generate_dataset size lr fr ar pr seed sd ed g = Except.ok l) :
    ∀ r ∈ l, r.is_abuse = true → r.difficulty_tier = Tier.easy := by
  by_cases hc : 0.99 ≤ lr + fr + ar + pr ∧ lr + fr + ar + pr ≤ 1.01
  · obtain ⟨l2, hl2, _, _, _, _, _, hall⟩ :=
      generate_dataset_spec size lr fr ar pr seed sd ed g hc.1 hc.2
    rw [h] at hl2
    injection hl2 with hl3
    rw [hl3]
    exact hall
  · exfalso
    simp only [generate_dataset] at h
    rw [if_pos hc] at h
    cases h

/- From here on the proofs evaluate the generators on concrete inputs, so the
draw primitives are unfolded again. -/
set_option allowUnsafeReducibility true in
attribute [semireducible] RState.next RState.nextF unitOf randomUnitV randintV choiceV
  choicesWV uniformV gaussV pickW round2 generate_ip_addressV generate_device_idV
  generate_transaction_idV generate_user_idV

/-- C2 counterexample: the FakeAccount generator run at timestamp 0, easy tier,
from the stream state seeded with 2 returns a record whose billing country "CA"
differs from its shipping country "DE" while `billing_shipping_match` is true —
the flag is an independent 40% draw (patterns.py line 267), not the derived
equality the spec states. -/
theorem C2_fake_account_counterexample :
    ¬ bsmOk (FakeAccountPatternGenerator.generate 0 Tier.easy (mkRState 2)).1 ∧
    (FakeAccountPatternGenerator.generate 0 Tier.easy (mkRState 2)).1.billing_country = "CA" ∧
    (FakeAccountPatternGenerator.generate 0 Tier.easy (mkRState 2)).1.shipping_country = "DE" ∧
    (FakeAccountPatternGenerator.generate 0 Tier.easy (mkRState 2)).1.billing_shipping_match
      = true := by
  refine ⟨?_, rfl, rfl, rfl⟩
  unfold bsmOk
  decide

/-- C4 counterexample: with size 100 and ratios (0.51, 0.50, 0, 0) — accepted,
since they sum to 1.01 — the dataset has 51 + 50 + 0 + 0 = 101 records, not
100: `payment_fraud_count` is negative and `range` of it is empty, so the
floors' overshoot is never compensated. -/
theorem C4_total_counterexample :
    ∃ l, generate_dataset 100 (51/100) (1/2) 0 0 (some 0) 0 86400 (mkRState 0) = Except.ok l ∧
      l.length = 101 := by
  obtain ⟨l, hgen, _, _, _, _, e5, _⟩ :=
    generate_dataset_spec 100 (51/100) (1/2) 0 0 (some 0) 0 86400 (mkRState 0)
      (by norm_num) (by norm_num)
  refine ⟨l, hgen, ?_⟩
  rw [e5]
  decide

/-- C4 witness: at size 100 with the default ratios (0.75, 0.10, 0.08, 0.07)
the amended count-allocation theorem applies: 75/10/8 floored records for the
first three archetypes, 7 payment-fraud records, 100 in total. -/
theorem C4_count_allocation_witness :
    ∃ l, generate_dataset 100 0.75 0.10 0.08 0.07 (some 0) 0 86400 (mkRState 0) = Except.ok l ∧
      realizedCount AbuseType.legitimate l = (⌊((100:ℕ):ℚ) * (0.75:ℚ)⌋).toNat ∧
      realizedCount AbuseType.fake_account l = (⌊((100:ℕ):ℚ) * (0.10:ℚ)⌋).toNat ∧
      realizedCount AbuseType.account_takeover l = (⌊((100:ℕ):ℚ) * (0.08:ℚ)⌋).toNat ∧
      (realizedCount AbuseType.payment_fraud l : ℤ) =
        ((100:ℕ) : ℤ) - ⌊((100:ℕ):ℚ) * (0.75:ℚ)⌋ - ⌊((100:ℕ):ℚ) * (0.10:ℚ)⌋
          - ⌊((100:ℕ):ℚ) * (0.08:ℚ)⌋ ∧
      l.length = 100 :=
  C4_count_allocation_amended 100 0.75 0.10 0.08 0.07 (some 0) 0 86400 (mkRState 0)
    (by norm_num) (by norm_num) (by norm_num) (by norm_num) (by norm_num)
    (by simp only [← qfloor_eq_floor]; decide)

/-- C5 witness: ratios (0.75, 0.10, 0.10, 0.10) sum to 1.05 > 1.01, so
`generate_dataset` returns the configuration error and no records. -/
theorem C5_config_error_witness :
    generate_dataset 100 0.75 0.10 0.10 0.10 (some 42) 0 86400 (mkRState 42) =
      Except.error "Ratios must sum to 1.0" :=
  C5_config_error 100 0.75 0.10 0.10 0.10 (some 42) 0 86400 (mkRState 42) (Or.inr (by norm_num))

/-- C6 counterexample: with size 15 and ratios (7/16, 3/16, 3/16, 3/16) — an
exact sum of 1 — payment_fraud gets 15 - 6 - 2 - 2 = 5 records, while
round(15 * 3/16) = round(2.8125) = 3: the realized count misses the rounded
target by 2, beyond any +-1 rounding tolerance. -/
theorem C6_payment_fraud_counterexample :
    ∃ l, generate_dataset 15 (7/16) (3/16) (3/16) (3/16) (some 0) 0 86400 (mkRState 0)
        = Except.ok l ∧
      realizedCount AbuseType.payment_fraud l = 5 ∧
      round (((15 : ℕ) : ℚ) * (3/16 : ℚ)) = 3 := by
  obtain ⟨l, hgen, _, _, _, e4, _, _⟩ :=
    generate_dataset_spec 15 (7/16) (3/16) (3/16) (3/16) (some 0) 0 86400 (mkRState 0)
      (by norm_num) (by norm_num)
  refine ⟨l, hgen, ?_, ?_⟩
  · rw [e4]
    decide
  · rw [round_eq, ← qfloor_eq_floor]
    decide

/-- C6 witness: at size 100 with the default ratios the amended ratio-fidelity
theorem applies: each of the first three archetypes realizes its rounded target
within one record. -/
theorem C6_ratio_fidelity_witness :
    ∃ l, generate_dataset 100 0.75 0.10 0.08 0.07 (some 7) 0 86400 (mkRState 7) = Except.ok l ∧
      ((realizedCount AbuseType.legitimate l : ℤ) - round (((100:ℕ):ℚ) * (0.75:ℚ))).natAbs ≤ 1 ∧
      ((realizedCount AbuseType.fake_account l : ℤ) - round (((100:ℕ):ℚ) * (0.10:ℚ))).natAbs ≤ 1 ∧
      ((realizedCount AbuseType.account_takeover l : ℤ)
        - round (((100:ℕ):ℚ) * (0.08:ℚ))).natAbs ≤ 1 :=
  C6_ratio_fidelity_amended 100 0.75 0.10 0.08 0.07 (some 7) 0 86400 (mkRState 7)
    (by norm_num) (by norm_num) (by norm_num) (by norm_num) (by norm_num)

/-- C9 counterexample: a dataset composed by `generate_dataset` itself — size 1,
all-legitimate ratios, inside the accepted band — makes `validate_dataset`
raise: the fake-account sample selection `.iloc[0]` has no row to select. -/
theorem C9_validator_counterexample :
    generate_dataset 1 1 0 0 0 (some 0) 0 86400 (mkRState 0) = Except.ok c9data ∧
    validate_dataset c9data = Except.error "IndexError: no fake_account record" := by
  constructor
  · rfl
  · rfl

/-- C9 witness: on a concrete four-record frame holding one record of each
archetype, the validator returns its report. -/
theorem C9_validator_witness : ∃ report, validate_dataset c9ok = Except.ok report :=
  C9_validator_amended c9ok
    ⟨_, by simp [c9ok], legit_abuse_type 0 Tier.na (mkRState 0)⟩
    ⟨_, by simp [c9ok], fake_abuse_type 0 Tier.easy (mkRState 0)⟩
    ⟨_, by simp [c9ok], ato_abuse_type 0 Tier.easy (mkRState 0)⟩
    ⟨_, by simp [c9ok], pf_abuse_type 0 Tier.easy (mkRState 0)⟩

/-- C10 witness: a concrete composed dataset of one fake-account record; the
record is abusive and, as the theorem requires, carries the easy tier. -/
theorem C10_composed_fraud_easy_witness :
    generate_dataset 1 0 1 0 0 (some 0) 0 86400 (mkRState 0) = Except.ok c10data ∧
    c10rec ∈ c10data ∧ c10rec.is_abuse = true ∧ c10rec.difficulty_tier = Tier.easy := by
  refine ⟨rfl, by decide, rfl, ?_⟩
  exact C10_composed_fraud_easy 1 0 1 0 0 (some 0) 0 86400 (mkRState 0) c10data rfl
    c10rec (by decide) rfl

end SynthData
